import Mathlib

/-!
Shallow embedding of the vetconnect-api backend (src/server.js, first iteration:
the Express + PostgreSQL app defined in lines 1-2786).  Tables are embedded as
lists of row structures, route handlers as pure functions from a database state
and a request to an HTTP status together with the new database state.  bcrypt
hashing/comparison and jwt verification are taken as oracle function parameters,
date parsing results are passed in explicitly (a parsed JavaScript `Date` is its
epoch-milliseconds value together with the two strings the handlers derive from
it).  JavaScript truthiness of request fields is modelled by `truthyStr` /
`truthyId` (absent fields are `none`).
-/

namespace VetConnect

/-- Row of the `users` table (CREATE TABLE users, server.js lines 90-106).
Only the columns the modelled routes read or write are kept. -/
structure User where
  id : Nat
  nome : String
  email : String
  telemovel : String
  tipo : String
  verificado : Bool
  codigoVerificacao : Option String
  pin : Option String
deriving Repr, DecidableEq

/-- Row of the `animais` table (columns used by the modelled routes). -/
structure Animal where
  id : Nat
  tutorId : Nat
  nome : String
deriving Repr, DecidableEq

/-- Row of the `clinicas` table. -/
structure Clinica where
  id : Nat
  nome : String
deriving Repr, DecidableEq

/-- Row of the `veterinarios` table; `clinicaId` references `clinicas(id)`. -/
structure Veterinario where
  id : Nat
  nome : String
  clinicaId : Nat
deriving Repr, DecidableEq

/-- Row of the `consultas` table (server.js lines 120-133): `data` and `hora`
hold the strings the handlers compute from the request's ISO date. -/
structure Consulta where
  id : Nat
  userId : Nat
  animalId : Nat
  clinicaId : Nat
  veterinarioId : Nat
  data : String
  hora : String
  motivo : Option String
  observacoes : Option String
  estado : String
deriving Repr, DecidableEq

/-- Row of the `tipos_vacina` table. -/
structure TipoVacina where
  id : Nat
  nome : String
  descricao : String
deriving Repr, DecidableEq

/-- A successfully parsed JavaScript `Date`: its epoch value in milliseconds
together with the strings the handlers derive from it
(`toISOString().split('T')[0]` and `toTimeString().split(' ')[0]`). -/
structure JSDate where
  ms : Int
  dataSql : String
  horaSql : String
deriving Repr, DecidableEq

/-- Row of the `vacinas` table (columns used by the modelled routes);
`dataAgendada` keeps the parsed form of the inserted `data_agendada` value. -/
structure Vacina where
  id : Nat
  animalId : Nat
  tipo : String
  tipoVacinaId : Nat
  dataAgendada : JSDate
  estado : String
  notificado : Bool
deriving Repr, DecidableEq

/-- Row of the `exames` table (columns used by the modelled routes). -/
structure Exame where
  id : Nat
  animalId : Nat
deriving Repr, DecidableEq

/-- The database state: one list per table, plus the `consultas` SERIAL
counter (`nextConsultaId`), which the insert in POST /consultas consumes.
`invalidatedTokens` keeps only the `token` column of `invalidated_tokens`,
the one column `authenticateToken` matches on. -/
structure Db where
  users : List User
  animais : List Animal
  clinicas : List Clinica
  veterinarios : List Veterinario
  consultas : List Consulta
  vacinas : List Vacina
  tiposVacina : List TipoVacina
  exames : List Exame
  invalidatedTokens : List String
  nextConsultaId : Nat
deriving Repr, DecidableEq

/-- JavaScript truthiness of an optional string body field (`!field` guards):
absent (or already-falsy) fields are `none`, the empty string is falsy. -/
def truthyStr : Option String → Bool
  | some s => !s.isEmpty
  | none => false

/-- JavaScript truthiness of an optional numeric id body field (`!field`
guards): absent fields are `none`, and the number 0 is falsy. -/
def truthyId : Option Nat → Bool
  | some n => n != 0
  | none => false

/-- Outcome of feeding a request's date string to `new Date(...)`:
`missing` when the field is absent or falsy, `invalid` when
`isNaN(date.getTime())`, `valid d` when it parses to `d`. -/
inductive DataField
  | missing
  | invalid
  | valid (d : JSDate)
deriving Repr, DecidableEq

/-- True exactly on an absent / falsy date field. -/
def DataField.isMissing : DataField → Bool
  | .missing => true
  | _ => false

/-! ## User routes -/

/-- Body of POST /utilizadores. -/
structure CriarUserReq where
  nome : Option String
  email : Option String
  telemovel : Option String
  tipo : Option String
deriving Repr, DecidableEq

/-- The regex `/^\+?[0-9]{9,15}$/` applied to the submitted phone number. -/
def telemovelRegexTest (s : String) : Bool :=
  let ds := match s.toList with
    | '+' :: rest => rest
    | cs => cs
  decide (9 ≤ ds.length) && decide (ds.length ≤ 15) && ds.all (fun c => c.isDigit)

/-- POST /utilizadores (server.js lines 384-460): required-field guard, phone
regex, duplicate-email then duplicate-phone lookups, then a single insert with
`verificado = false` and the generated verification code.  The random
6-digit code and the SERIAL id of the inserted row are passed in. -/
def postUtilizadores (db : Db) (req : CriarUserReq) (verificationCode : String)
    (freshId : Nat) : Nat × Db :=
  if !truthyStr req.nome || !truthyStr req.email || !truthyStr req.telemovel
      || !truthyStr req.tipo then (400, db)
  else
    let nome := req.nome.getD ""
    let email := req.email.getD ""
    let telemovel := req.telemovel.getD ""
    let tipo := req.tipo.getD ""
    if !telemovelRegexTest telemovel then (400, db)
    else if db.users.any (fun u => u.email == email) then (400, db)
    else if db.users.any (fun u => u.telemovel == telemovel) then (400, db)
    else
      let newUser : User :=
        { id := freshId, nome := nome, email := email, telemovel := telemovel,
          tipo := tipo, verificado := false,
          codigoVerificacao := some verificationCode, pin := none }
      (201, { db with users := db.users ++ [newUser] })

/-- Body of POST /utilizadores/verificar. -/
structure VerificarReq where
  email : Option String
  codigoVerificacao : Option String
deriving Repr, DecidableEq

/-- POST /utilizadores/verificar (server.js lines 464-506): required-field
guard, user lookup by email, strict comparison of the submitted code against
the stored one, then `UPDATE users SET codigoVerificacao = NULL,
verificado = true WHERE email = $1`. -/
def postVerificar (db : Db) (req : VerificarReq) : Nat × Db :=
  if !truthyStr req.email || !truthyStr req.codigoVerificacao then (400, db)
  else
    let email := req.email.getD ""
    let codigo := req.codigoVerificacao.getD ""
    match db.users.find? (fun u => u.email == email) with
    | none => (404, db)
    | some user =>
      if user.codigoVerificacao != some codigo then (400, db)
      else
        (200, { db with users := db.users.map (fun u =>
          if u.email == email then
            { u with codigoVerificacao := none, verificado := true }
          else u) })

/-- Body of POST /utilizadores/criar-pin; `pin` is the `String(pin)` form of
the submitted value. -/
structure CriarPinReq where
  email : Option String
  pin : Option String
deriving Repr, DecidableEq

/-- POST /utilizadores/criar-pin (server.js lines 510-551): required-field
guard, `String(pin).length !== 6` check, user lookup by email, then
`UPDATE users SET pin = $1 WHERE email = $2` with the bcrypt hash of the PIN.
The bcrypt hash (salted) is the oracle `bhash`. -/
def postCriarPin (db : Db) (req : CriarPinReq) (bhash : String → String) :
    Nat × Db :=
  if !truthyStr req.email || !truthyStr req.pin then (400, db)
  else
    let email := req.email.getD ""
    let pin := req.pin.getD ""
    if pin.length != 6 then (400, db)
    else
      match db.users.find? (fun u => u.email == email) with
      | none => (404, db)
      | some _user =>
        (200, { db with users := db.users.map (fun u =>
          if u.email == email then { u with pin := some (bhash pin) } else u) })

/-- A token signed by `jwt.sign({ id, email }, secret, { expiresIn: '3h' })`. -/
structure SignedToken where
  payloadId : Nat
  payloadEmail : String
  expiresInHours : Nat
deriving Repr, DecidableEq

/-- Body of POST /utilizadores/login; `pin` is the `String(pin)` form. -/
structure LoginReq where
  email : Option String
  pin : Option String
deriving Repr, DecidableEq

/-- POST /utilizadores/login (server.js lines 554-615): required-field guard,
user lookup by email, 401 when the row is missing or has no stored pin hash,
`bcrypt.compare` (oracle `bcompare`) against the hash, then a 3-hour signed
token.  The route only reads the users table. -/
def postLogin (db : Db) (req : LoginReq) (bcompare : String → String → Bool) :
    Nat × Option SignedToken × Db :=
  if !truthyStr req.email || !truthyStr req.pin then (400, none, db)
  else
    let email := req.email.getD ""
    let pin := req.pin.getD ""
    match db.users.find? (fun u => u.email == email) with
    | none => (401, none, db)
    | some user =>
      match user.pin with
      | none => (401, none, db)
      | some storedHash =>
        if !bcompare pin storedHash then (401, none, db)
        else
          let token : SignedToken :=
            { payloadId := user.id, payloadEmail := user.email,
              expiresInHours := 3 }
          (200, some token, db)

/-- Body of POST /utilizadores/alterar-pin; both fields are the `String(...)`
forms of the submitted values. -/
structure AlterarPinReq where
  pinAtual : Option String
  novoPin : Option String
deriving Repr, DecidableEq

/-- POST /utilizadores/alterar-pin (server.js lines 822-902): required-field
guard, `String(...).length !== 6` checks on both pins, equality rejection,
user lookup by the authenticated id, 400 when no pin is stored, bcrypt compare
of the current pin, then `UPDATE users SET pin = $1 WHERE id = $2`. -/
def postAlterarPin (db : Db) (uid : Nat) (req : AlterarPinReq)
    (bcompare : String → String → Bool) (bhash : String → String) : Nat × Db :=
  if !truthyStr req.pinAtual || !truthyStr req.novoPin then (400, db)
  else
    let pinAtual := req.pinAtual.getD ""
    let novoPin := req.novoPin.getD ""
    if pinAtual.length != 6 || novoPin.length != 6 then (400, db)
    else if pinAtual == novoPin then (400, db)
    else
      match db.users.find? (fun u => u.id == uid) with
      | none => (404, db)
      | some user =>
        match user.pin with
        | none => (400, db)
        | some storedHash =>
          if !bcompare pinAtual storedHash then (401, db)
          else
            (200, { db with users := db.users.map (fun u =>
              if u.id == uid then { u with pin := some (bhash novoPin) }
              else u) })

/-- POST /utilizadores/logout (server.js lines 905-936): inserts the
authenticated request's bearer token into `invalidated_tokens`. -/
def postLogout (db : Db) (_uid : Nat) (token : String) : Nat × Db :=
  (200, { db with invalidatedTokens := db.invalidatedTokens ++ [token] })

/-! ## Authentication middleware -/

/-- The `req.user` payload attached by authentication: the claims of a login
token are `{ id, email }`; the debug middleware attaches a fake user whose
`tipo` is `'veterinario'`.  Handlers read `req.user.id` and `req.user.tipo`. -/
structure AuthUser where
  id : Nat
  email : String
  tipo : String
deriving Repr, DecidableEq

/-- The fake user the debug middleware attaches (server.js lines 315-319). -/
def debugUser : AuthUser :=
  { id := 999, email := "debug@teste.com", tipo := "veterinario" }

/-- Result of running the debug middleware followed by `authenticateToken`:
either the route handler runs with an attached user and token, or the request
is rejected with a status before the handler runs. -/
inductive AuthOutcome
  | ok (user : AuthUser) (token : String)
  | rejected (status : Nat)
deriving Repr, DecidableEq

/-- Process environment bits the middleware reads. -/
structure AuthEnv where
  debugMode : Bool
deriving Repr, DecidableEq

/-- The parts of an incoming request the middleware reads: whether
`req.query.debug === 'true'`, and the raw `Authorization` header. -/
structure AuthRequest where
  debugQuery : Bool
  authHeader : Option String
deriving Repr, DecidableEq

/-- Split of a character list at every space, as `String.split(' ')` does in
JavaScript (adjacent separators produce empty fields). -/
def splitSpacesAux : List Char → List Char → List (List Char)
  | [], acc => [acc.reverse]
  | c :: cs, acc =>
    if c = ' ' then acc.reverse :: splitSpacesAux cs []
    else splitSpacesAux cs (c :: acc)

/-- The fields of `s.split(' ')`. -/
def jsSplitSpace (s : String) : List String :=
  (splitSpacesAux s.toList []).map (fun l => String.mk l)

/-- Bearer-token extraction `authHeader && authHeader.split(' ')[1]` followed
by the `if (!token)` falsiness guard. -/
def bearerToken (authHeader : Option String) : Option String :=
  match authHeader with
  | none => none
  | some h =>
    match (jsSplitSpace h).get? 1 with
    | none => none
    | some t => if t.isEmpty then none else some t

/-- The debug middleware (server.js lines 309-336) composed with
`authenticateToken` (lines 339-376): when `DEBUG_MODE === 'true'` and the
request carries `?debug=true`, a fake veterinarian user is attached and
`authenticateToken` passes it straight through; otherwise the bearer token is
extracted (401 when absent), checked against `invalidated_tokens` (403 when
found), and signature-verified by the oracle `jwtVerify` (403 on failure). -/
def authPipeline (env : AuthEnv) (req : AuthRequest) (db : Db)
    (jwtVerify : String → Option AuthUser) : AuthOutcome :=
  if env.debugMode && req.debugQuery then AuthOutcome.ok debugUser "debug-token"
  else
    match bearerToken req.authHeader with
    | none => AuthOutcome.rejected 401
    | some token =>
      if db.invalidatedTokens.contains token then AuthOutcome.rejected 403
      else
        match jwtVerify token with
        | none => AuthOutcome.rejected 403
        | some user => AuthOutcome.ok user token

/-! ## Consulta routes -/

/-- The conflict query of POST /consultas (server.js lines 1309-1316):
any non-cancelled row with the same (veterinarioId, data, hora). -/
def slotTakenPost (cs : List Consulta) (vet : Nat) (d h : String) : Bool :=
  cs.any (fun c => c.veterinarioId == vet && c.data == d && c.hora == h &&
    c.estado != "cancelada")

/-- The conflict query of PUT /consultas/:id (server.js lines 1621-1629):
same as `slotTakenPost` but excluding the row being updated. -/
def slotTakenPut (cs : List Consulta) (vet : Nat) (d h : String)
    (selfId : Nat) : Bool :=
  cs.any (fun c => c.veterinarioId == vet && c.data == d && c.hora == h &&
    c.estado != "cancelada" && c.id != selfId)

/-- Body of POST /consultas; `data` is the result of parsing the submitted
ISO string. -/
structure NovaConsultaReq where
  animalId : Option Nat
  clinicaId : Option Nat
  veterinarioId : Option Nat
  data : DataField
  motivo : Option String
deriving Repr, DecidableEq

/-- POST /consultas (server.js lines 1233-1368): required-field guard,
date parsing and past-date rejection against midnight of today (`hojeMs`),
animal existence and ownership, veterinarian-belongs-to-clinic check, clinic
existence, the double-booking conflict check, then an insert with
`estado = 'marcada'` taking the SERIAL id `nextConsultaId`. -/
def postConsultas (db : Db) (uid : Nat) (req : NovaConsultaReq)
    (hojeMs : Int) : Nat × Db :=
  if !truthyId req.animalId || !truthyId req.clinicaId
      || !truthyId req.veterinarioId || req.data.isMissing then (400, db)
  else
    let animalId := req.animalId.getD 0
    let clinicaId := req.clinicaId.getD 0
    let veterinarioId := req.veterinarioId.getD 0
    match req.data with
    | .missing => (400, db)
    | .invalid => (400, db)
    | .valid fullDate =>
      if fullDate.ms < hojeMs then (400, db)
      else
        match db.animais.find? (fun a => a.id == animalId) with
        | none => (404, db)
        | some animal =>
          if animal.tutorId != uid then (403, db)
          else if (db.veterinarios.find? (fun v => v.id == veterinarioId &&
              v.clinicaId == clinicaId)).isNone then (400, db)
          else if (db.clinicas.find? (fun c => c.id == clinicaId)).isNone then
            (404, db)
          else if slotTakenPost db.consultas veterinarioId fullDate.dataSql
              fullDate.horaSql then (409, db)
          else
            let newConsulta : Consulta :=
              { id := db.nextConsultaId, userId := uid, animalId := animalId,
                clinicaId := clinicaId, veterinarioId := veterinarioId,
                data := fullDate.dataSql, hora := fullDate.horaSql,
                motivo := req.motivo, observacoes := none, estado := "marcada" }
            let db' : Db :=
              { db with
                consultas := db.consultas ++ [newConsulta],
                nextConsultaId := db.nextConsultaId + 1 }
            (201, db')

/-- Body of PUT /consultas/:id; a `none` field was not present in the body
(`!== undefined` keeps the original value). -/
structure UpdateConsultaReq where
  motivo : Option String
  data : DataField
  clinicaId : Option Nat
  veterinarioId : Option Nat
  observacoes : Option String
deriving Repr, DecidableEq

/-- The row rewrite performed by the UPDATE of PUT /consultas/:id on the rows
matching the path id. -/
def putUpdateRow (id : Nat) (novoMotivo : Option String)
    (novaData novaHora : String) (novaClinicaId novoVeterinarioId : Nat)
    (novasObservacoes : Option String) (c : Consulta) : Consulta :=
  if c.id == id then
    { c with
      motivo := novoMotivo, data := novaData, hora := novaHora,
      clinicaId := novaClinicaId, veterinarioId := novoVeterinarioId,
      observacoes := novasObservacoes }
  else c

/-- The tail of PUT /consultas/:id after the date processing: merge of the
submitted fields with the original row, the `dataMudou` / `veterinarioMudou` /
`clinicaMudou` flags (JavaScript truthiness on the submitted ids), the
vet-belongs-to-clinic check, the conflict check, and the UPDATE.  The new row
values must also satisfy the schema's foreign keys
`consultas.veterinarioId REFERENCES veterinarios(id)` and
`consultas.clinicaId REFERENCES clinicas(id)` (server.js lines 125-126);
a violating UPDATE raises and is answered 500 by the catch block. -/
def putConsultasCore (db : Db) (id : Nat) (req : UpdateConsultaReq)
    (orig : Consulta) (novaData novaHora : String) (dataProvided : Bool) :
    Nat × Db :=
  let novoMotivo := match req.motivo with | some m => some m | none => orig.motivo
  let novaClinicaId := req.clinicaId.getD orig.clinicaId
  let novoVeterinarioId := req.veterinarioId.getD orig.veterinarioId
  let novasObservacoes :=
    match req.observacoes with | some o => some o | none => orig.observacoes
  let dataMudou := dataProvided &&
    (novaData != orig.data || novaHora != orig.hora)
  let veterinarioMudou := truthyId req.veterinarioId &&
    novoVeterinarioId != orig.veterinarioId
  let clinicaMudou := truthyId req.clinicaId && novaClinicaId != orig.clinicaId
  if (veterinarioMudou || clinicaMudou) &&
      (db.veterinarios.find? (fun v => v.id == novoVeterinarioId &&
        v.clinicaId == novaClinicaId)).isNone then (400, db)
  else if (dataMudou || veterinarioMudou) &&
      slotTakenPut db.consultas novoVeterinarioId novaData novaHora id then
    (409, db)
  else if (db.veterinarios.find? (fun v => v.id == novoVeterinarioId)).isNone
      || (db.clinicas.find? (fun cl => cl.id == novaClinicaId)).isNone then
    (500, db)
  else
    (200, { db with consultas := db.consultas.map (putUpdateRow id novoMotivo
      novaData novaHora novaClinicaId novoVeterinarioId novasObservacoes) })

/-- PUT /consultas/:id (server.js lines 1540-1680): row lookup (404),
ownership check (403), then date processing — an invalid submitted date is
400, a submitted date in the past (before midnight of today, `hojeMs`) is 400,
an absent date keeps the original `data` / `hora` — followed by
`putConsultasCore`. -/
def putConsultas (db : Db) (uid : Nat) (id : Nat) (req : UpdateConsultaReq)
    (hojeMs : Int) : Nat × Db :=
  match db.consultas.find? (fun c => c.id == id) with
  | none => (404, db)
  | some orig =>
    if orig.userId != uid then (403, db)
    else
      match req.data with
      | .invalid => (400, db)
      | .valid d =>
        if d.ms < hojeMs then (400, db)
        else putConsultasCore db id req orig d.dataSql d.horaSql true
      | .missing => putConsultasCore db id req orig orig.data orig.hora false

/-- DELETE /consultas/:id (server.js lines 1453-1537): row lookup (404),
owner-or-veterinarian permission check (403), past-date rejection (400,
comparing `new Date(row.data)` — the oracle `dateMs` — against midnight of
today `hojeMs`), then `DELETE FROM consultas WHERE id = $1`. -/
def deleteConsultas (db : Db) (uid : Nat) (userTipo : String) (id : Nat)
    (dateMs : String → Int) (hojeMs : Int) : Nat × Db :=
  match db.consultas.find? (fun c => c.id == id) with
  | none => (404, db)
  | some consulta =>
    if consulta.userId != uid && userTipo != "veterinario" then (403, db)
    else if dateMs consulta.data < hojeMs then (400, db)
    else
      let rest := db.consultas.filter (fun c => !(c.id == id))
      (200, { db with consultas := rest })

/-! ## Vacina route -/

/-- Body of POST /vacinas/agendar. -/
structure AgendarVacinaReq where
  animalId : Option Nat
  tipoVacinaId : Option Nat
  dataAgendada : DataField
  clinicaId : Option Nat
  veterinarioId : Option Nat
  observacoes : Option String
deriving Repr, DecidableEq

/-- POST /vacinas/agendar (server.js lines 1809-1929): required-field guard,
animal existence-and-ownership lookup (404), vaccine-type lookup (404), date
validation — note both lookups run before it — with the past check against
the current instant (`nowMs`, `new Date()` without truncation), optional
clinic and veterinarian existence checks, then an insert with
`estado = 'agendada'` and `notificado = false`. -/
def postVacinasAgendar (db : Db) (uid : Nat) (req : AgendarVacinaReq)
    (nowMs : Int) (freshId : Nat) : Nat × Db :=
  if !truthyId req.animalId || !truthyId req.tipoVacinaId
      || req.dataAgendada.isMissing then (400, db)
  else
    let animalId := req.animalId.getD 0
    let tipoVacinaId := req.tipoVacinaId.getD 0
    match db.animais.find? (fun a => a.id == animalId && a.tutorId == uid) with
    | none => (404, db)
    | some _animal =>
      match db.tiposVacina.find? (fun t => t.id == tipoVacinaId) with
      | none => (404, db)
      | some tipoVacina =>
        match req.dataAgendada with
        | .missing => (400, db)
        | .invalid => (400, db)
        | .valid d =>
          if d.ms < nowMs then (400, db)
          else if truthyId req.clinicaId && (db.clinicas.find?
              (fun c => c.id == req.clinicaId.getD 0)).isNone then (404, db)
          else if truthyId req.veterinarioId && (db.veterinarios.find?
              (fun v => v.id == req.veterinarioId.getD 0)).isNone then (404, db)
          else
            let newVacina : Vacina :=
              { id := freshId, animalId := animalId, tipo := tipoVacina.nome,
                tipoVacinaId := tipoVacinaId, dataAgendada := d,
                estado := "agendada", notificado := false }
            (201, { db with vacinas := db.vacinas ++ [newVacina] })

/-! ## Read endpoints used by the ownership claims -/

/-- GET /animais/:animalId (server.js lines 1031-1059): row lookup (404), then
403 when the requester is neither the owning tutor nor a veterinarian; on
success the animal row is returned. -/
def getAnimalById (db : Db) (user : AuthUser) (animalId : Nat) :
    Nat × Option Animal :=
  match db.animais.find? (fun a => a.id == animalId) with
  | none => (404, none)
  | some animal =>
    if animal.tutorId != user.id && user.tipo != "veterinario" then (403, none)
    else (200, some animal)

/-- GET /consultas/user/:userId (server.js lines 1409-1450): 403 when the path
user id differs from the requester's and the requester is not a veterinarian;
otherwise the target user's consulta rows are returned. -/
def getConsultasByUser (db : Db) (user : AuthUser) (paramUserId : Nat) :
    Nat × Option (List Consulta) :=
  if paramUserId != user.id && user.tipo != "veterinario" then (403, none)
  else (200, some (db.consultas.filter (fun c => c.userId == paramUserId)))

/-- GET /animais/:animalId/exames (server.js lines 2485-2560): a single lookup
`WHERE id = $1 AND tutorId = $2`; an empty result — the animal is missing or
belongs to another tutor — is answered 403, otherwise the animal's exam rows
are returned. -/
def getAnimalExames (db : Db) (user : AuthUser) (animalId : Nat) :
    Nat × Option (List Exame) :=
  match db.animais.find? (fun a => a.id == animalId && a.tutorId == user.id) with
  | none => (403, none)
  | some _ => (200, some (db.exames.filter (fun e => e.animalId == animalId)))

/-! ## Operation sequences and invariants -/

/-- One call to a state-mutating modelled endpoint; oracle functions
(bcrypt, jwt decode of dates) and request-independent inputs (today's
midnight, fresh SERIAL ids for tables other than `consultas`) are carried by
the constructor. -/
inductive ApiOp
  | criarUser (req : CriarUserReq) (code : String) (freshId : Nat)
  | verificarUser (req : VerificarReq)
  | criarPin (req : CriarPinReq) (bhash : String → String)
  | login (req : LoginReq) (bcompare : String → String → Bool)
  | alterarPin (uid : Nat) (req : AlterarPinReq)
      (bcompare : String → String → Bool) (bhash : String → String)
  | logout (uid : Nat) (token : String)
  | postConsulta (uid : Nat) (req : NovaConsultaReq) (hojeMs : Int)
  | putConsulta (uid : Nat) (id : Nat) (req : UpdateConsultaReq) (hojeMs : Int)
  | deleteConsulta (uid : Nat) (tipo : String) (id : Nat)
      (dateMs : String → Int) (hojeMs : Int)
  | agendarVacina (uid : Nat) (req : AgendarVacinaReq) (nowMs : Int)
      (freshId : Nat)

/-- The database state after one operation. -/
def applyOp (db : Db) : ApiOp → Db
  | .criarUser req code freshId => (postUtilizadores db req code freshId).2
  | .verificarUser req => (postVerificar db req).2
  | .criarPin req bhash => (postCriarPin db req bhash).2
  | .login req bcompare => (postLogin db req bcompare).2.2
  | .alterarPin uid req bcompare bhash =>
      (postAlterarPin db uid req bcompare bhash).2
  | .logout uid token => (postLogout db uid token).2
  | .postConsulta uid req hojeMs => (postConsultas db uid req hojeMs).2
  | .putConsulta uid id req hojeMs => (putConsultas db uid id req hojeMs).2
  | .deleteConsulta uid tipo id dateMs hojeMs =>
      (deleteConsultas db uid tipo id dateMs hojeMs).2
  | .agendarVacina uid req nowMs freshId =>
      (postVacinasAgendar db uid req nowMs freshId).2

/-- The database state after a sequence of operations, executed one at a
time. -/
def runOps (db : Db) : List ApiOp → Db
  | [] => db
  | op :: ops => runOps (applyOp db op) ops

/-- Two consulta rows do not double-book: one of them is cancelled or they
occupy different (veterinarioId, data, hora) slots. -/
def NoDoubleRel (a b : Consulta) : Prop :=
  a.estado = "cancelada" ∨ b.estado = "cancelada" ∨
    ¬(a.veterinarioId = b.veterinarioId ∧ a.data = b.data ∧ a.hora = b.hora)

instance : DecidableRel NoDoubleRel := fun a b => by
  unfold NoDoubleRel
  infer_instance

/-- The booking invariant: no two non-cancelled consulta rows share
(veterinarioId, data, hora). -/
def NoDouble (cs : List Consulta) : Prop :=
  cs.Pairwise NoDoubleRel

instance (cs : List Consulta) : Decidable (NoDouble cs) := by
  unfold NoDouble
  infer_instance

/-- No consulta row is marked cancelled. -/
def NoCancelada (cs : List Consulta) : Prop :=
  ∀ c ∈ cs, c.estado ≠ "cancelada"

instance (cs : List Consulta) : Decidable (NoCancelada cs) := by
  unfold NoCancelada
  infer_instance

/-- Structural facts PostgreSQL guarantees for every reachable database:
consulta SERIAL ids are below the counter and distinct, veterinarian SERIAL
ids are positive, and `consultas.veterinarioId` satisfies its foreign key. -/
structure WfDb (db : Db) : Prop where
  idsLt : ∀ c ∈ db.consultas, c.id < db.nextConsultaId
  idsNodup : (db.consultas.map Consulta.id).Nodup
  vetPos : ∀ v ∈ db.veterinarios, 0 < v.id
  vetFk : ∀ c ∈ db.consultas, ∃ v ∈ db.veterinarios, v.id = c.veterinarioId

/-- A user row with every `verificado` flag forced to `false`; two databases
whose user lists agree under this map differ at most in verification flags. -/
def User.eraseVerificado (u : User) : User := { u with verificado := false }

/-- Two database states that differ only in the `verificado` values of their
user rows. -/
def VerifIndep (db1 db2 : Db) : Prop :=
  db1.users.map User.eraseVerificado = db2.users.map User.eraseVerificado ∧
  db1.animais = db2.animais ∧ db1.clinicas = db2.clinicas ∧
  db1.veterinarios = db2.veterinarios ∧ db1.consultas = db2.consultas ∧
  db1.vacinas = db2.vacinas ∧ db1.tiposVacina = db2.tiposVacina ∧
  db1.exames = db2.exames ∧
  db1.invalidatedTokens = db2.invalidatedTokens ∧
  db1.nextConsultaId = db2.nextConsultaId

/-! ## Concrete sample data (for closed instances of the theorems) -/

/-- The empty database, with the consulta SERIAL counter at 1. -/
def emptyDb : Db :=
  { users := [], animais := [], clinicas := [], veterinarios := [],
    consultas := [], vacinas := [], tiposVacina := [], exames := [],
    invalidatedTokens := [], nextConsultaId := 1 }

/-- A stand-in for the salted bcrypt hash oracle. -/
def hashSim : String → String := fun s => String.append "h" s

/-- A stand-in for `bcrypt.compare`, consistent with `hashSim`. -/
def cmpSim : String → String → Bool := fun p h => h == String.append "h" p

/-- A jwt verifier oracle that accepts nothing. -/
def noVerify : String → Option AuthUser := fun _ => none

/-- A stand-in for `new Date(row.data)` that maps every date string to 0. -/
def zeroDateMs : String → Int := fun _ => 0

/-- Sample tutor row: unverified, with a stored code and a stored pin hash. -/
def anaUser : User :=
  { id := 1, nome := "Ana", email := "ana@ex.pt", telemovel := "912345678",
    tipo := "tutor", verificado := false, codigoVerificacao := some "654321",
    pin := some "h123456" }

/-- The same row with `verificado = true`. -/
def anaVerified : User := { anaUser with verificado := true }

/-- Sample clinic row. -/
def sampleClinica : Clinica := { id := 1, nome := "Animal Clinic" }

/-- Sample veterinarian row, in the sample clinic. -/
def sampleVet : Veterinario := { id := 1, nome := "Dr. Joao", clinicaId := 1 }

/-- Sample animal row, owned by tutor 1. -/
def sampleAnimal : Animal := { id := 1, tutorId := 1, nome := "Rex" }

/-- A future slot. -/
def dia1 : JSDate :=
  { ms := 1000, dataSql := "2030-01-01", horaSql := "10:00:00" }

/-- A second future slot. -/
def dia2 : JSDate :=
  { ms := 2000, dataSql := "2030-01-02", horaSql := "11:00:00" }

/-- A date strictly in the past of every sample clock. -/
def pastDia : JSDate :=
  { ms := -1000, dataSql := "1969-12-31", horaSql := "23:59:59" }

/-- A consulta occupying `dia1` with the sample veterinarian. -/
def consulta1 : Consulta :=
  { id := 1, userId := 1, animalId := 1, clinicaId := 1, veterinarioId := 1,
    data := "2030-01-01", hora := "10:00:00", motivo := none,
    observacoes := none, estado := "marcada" }

/-- Sample database: one tutor, one animal, one clinic/vet pair, one booked
consulta and one vaccine type. -/
def sampleDb : Db :=
  { emptyDb with
    users := [anaUser],
    animais := [sampleAnimal],
    clinicas := [sampleClinica],
    veterinarios := [sampleVet],
    consultas := [consulta1],
    tiposVacina := [{ id := 1, nome := "raiva", descricao := "anual" }],
    nextConsultaId := 2 }

/-- The sample database with Ana verified instead. -/
def sampleDbVerified : Db := { sampleDb with users := [anaVerified] }

/-- A database whose blacklist contains the token "tokX". -/
def blDb : Db := { emptyDb with invalidatedTokens := ["tokX"] }

/-- An authenticated non-veterinarian user other than tutor 1. -/
def otherAuth : AuthUser := { id := 2, email := "outro@ex.pt", tipo := "tutor" }

/-- A second consulta, owned by tutor 1, occupying `dia2` with the sample
veterinarian. -/
def consulta2 : Consulta :=
  { id := 2, userId := 1, animalId := 1, clinicaId := 1, veterinarioId := 1,
    data := "2030-01-02", hora := "11:00:00", motivo := none,
    observacoes := none, estado := "marcada" }

/-- The sample database with two booked consultas. -/
def c1Db : Db :=
  { sampleDb with consultas := [consulta1, consulta2], nextConsultaId := 3 }

/-- A vaccine-scheduling request for a past date. -/
def vacPastReq : AgendarVacinaReq :=
  { animalId := some 1, tipoVacinaId := some 1,
    dataAgendada := DataField.valid pastDia, clinicaId := none,
    veterinarioId := none, observacoes := none }

/-! ## Theorems -/

/-! ### Helper lemmas about the operations -/

/-- POST /utilizadores touches only the users table. -/
theorem postUtilizadores_keeps (db : Db) (req : CriarUserReq) (code : String)
    (fid : Nat) :
    (postUtilizadores db req code fid).2.consultas = db.consultas ∧
    (postUtilizadores db req code fid).2.veterinarios = db.veterinarios ∧
    (postUtilizadores db req code fid).2.nextConsultaId = db.nextConsultaId := by
  unfold postUtilizadores
  dsimp only
  repeat first | exact ⟨rfl, rfl, rfl⟩ | split

/-- POST /utilizadores/verificar touches only the users table. -/
theorem postVerificar_keeps (db : Db) (req : VerificarReq) :
    (postVerificar db req).2.consultas = db.consultas ∧
    (postVerificar db req).2.veterinarios = db.veterinarios ∧
    (postVerificar db req).2.nextConsultaId = db.nextConsultaId := by
  unfold postVerificar
  dsimp only
  repeat first | exact ⟨rfl, rfl, rfl⟩ | split

/-- POST /utilizadores/criar-pin touches only the users table. -/
theorem postCriarPin_keeps (db : Db) (req : CriarPinReq)
    (bhash : String → String) :
    (postCriarPin db req bhash).2.consultas = db.consultas ∧
    (postCriarPin db req bhash).2.veterinarios = db.veterinarios ∧
    (postCriarPin db req bhash).2.nextConsultaId = db.nextConsultaId := by
  unfold postCriarPin
  dsimp only
  repeat first | exact ⟨rfl, rfl, rfl⟩ | split

/-- POST /utilizadores/login never changes the database. -/
theorem postLogin_keeps (db : Db) (req : LoginReq)
    (bcompare : String → String → Bool) :
    (postLogin db req bcompare).2.2 = db := by
  unfold postLogin
  dsimp only
  repeat first | rfl | split

/-- POST /utilizadores/alterar-pin touches only the users table. -/
theorem postAlterarPin_keeps (db : Db) (uid : Nat) (req : AlterarPinReq)
    (bcompare : String → String → Bool) (bhash : String → String) :
    (postAlterarPin db uid req bcompare bhash).2.consultas = db.consultas ∧
    (postAlterarPin db uid req bcompare bhash).2.veterinarios
      = db.veterinarios ∧
    (postAlterarPin db uid req bcompare bhash).2.nextConsultaId
      = db.nextConsultaId := by
  unfold postAlterarPin
  dsimp only
  repeat first | exact ⟨rfl, rfl, rfl⟩ | split

/-- POST /vacinas/agendar touches only the vacinas table. -/
theorem postVacinasAgendar_keeps (db : Db) (uid : Nat)
    (req : AgendarVacinaReq) (nowMs : Int) (fid : Nat) :
    (postVacinasAgendar db uid req nowMs fid).2.consultas = db.consultas ∧
    (postVacinasAgendar db uid req nowMs fid).2.veterinarios
      = db.veterinarios ∧
    (postVacinasAgendar db uid req nowMs fid).2.nextConsultaId
      = db.nextConsultaId := by
  unfold postVacinasAgendar
  dsimp only
  repeat first | exact ⟨rfl, rfl, rfl⟩ | split

/-- The row update of PUT /consultas/:id keeps the row id. -/
theorem putUpdateRow_id (id : Nat) (m : Option String) (nd nh : String)
    (nc nv : Nat) (o : Option String) (c : Consulta) :
    (putUpdateRow id m nd nh nc nv o c).id = c.id := by
  unfold putUpdateRow
  split <;> rfl

/-- The row update of PUT /consultas/:id keeps the row estado. -/
theorem putUpdateRow_estado (id : Nat) (m : Option String) (nd nh : String)
    (nc nv : Nat) (o : Option String) (c : Consulta) :
    (putUpdateRow id m nd nh nc nv o c).estado = c.estado := by
  unfold putUpdateRow
  split <;> rfl

/-- Rows not matching the path id are untouched by the UPDATE. -/
theorem putUpdateRow_ne (id : Nat) (m : Option String) (nd nh : String)
    (nc nv : Nat) (o : Option String) (c : Consulta)
    (h : (c.id == id) = false) : putUpdateRow id m nd nh nc nv o c = c := by
  unfold putUpdateRow
  rw [h]
  rfl

/-- Rows matching the path id are rewritten by the UPDATE. -/
theorem putUpdateRow_eq (id : Nat) (m : Option String) (nd nh : String)
    (nc nv : Nat) (o : Option String) (c : Consulta)
    (h : (c.id == id) = true) :
    putUpdateRow id m nd nh nc nv o c =
      { c with
        motivo := m, data := nd, hora := nh, clinicaId := nc,
        veterinarioId := nv, observacoes := o } := by
  unfold putUpdateRow
  rw [h]
  rfl

/-- The no-double-booking relation is symmetric. -/
theorem noDoubleRel_symm : Symmetric NoDoubleRel := by
  intro a b h
  rcases h with h | h | h
  · exact Or.inr (Or.inl h)
  · exact Or.inl h
  · refine Or.inr (Or.inr ?_)
    rintro ⟨h1, h2, h3⟩
    exact h ⟨h1.symm, h2.symm, h3.symm⟩

/-- The no-double-booking relation only looks at the slot and the estado. -/
theorem noDoubleRel_congr_left (x' x y : Consulta)
    (hv : x'.veterinarioId = x.veterinarioId) (hd : x'.data = x.data)
    (hh : x'.hora = x.hora) (he : x'.estado = x.estado)
    (h : NoDoubleRel x y) : NoDoubleRel x' y := by
  rcases h with h | h | h
  · exact Or.inl (he.trans h)
  · exact Or.inr (Or.inl h)
  · refine Or.inr (Or.inr ?_)
    rintro ⟨h1, h2, h3⟩
    exact h ⟨hv ▸ h1, hd ▸ h2, hh ▸ h3⟩

/-- Unfolding of a failed POST-conflict query: on a board with no conflict,
every row in the slot is cancelled. -/
theorem slotTakenPost_false_elim (cs : List Consulta) (v : Nat)
    (d h : String) (hs : slotTakenPost cs v d h = false) :
    ∀ c ∈ cs, c.veterinarioId = v → c.data = d → c.hora = h →
      c.estado = "cancelada" := by
  intro c hc h1 h2 h3
  have := List.any_eq_false.mp hs c hc
  by_contra hne
  exact this (by simp [h1, h2, h3, hne])

/-- Unfolding of a failed PUT-conflict query. -/
theorem slotTakenPut_false_elim (cs : List Consulta) (v : Nat) (d h : String)
    (selfId : Nat) (hs : slotTakenPut cs v d h selfId = false) :
    ∀ c ∈ cs, c.veterinarioId = v → c.data = d → c.hora = h →
      c.id ≠ selfId → c.estado = "cancelada" := by
  intro c hc h1 h2 h3 h4
  have := List.any_eq_false.mp hs c hc
  by_contra hne
  exact this (by simp [h1, h2, h3, h4, hne])

/-- A database change that keeps the consultas list, the veterinarios list
and the consulta id counter preserves well-formedness and the booking
invariant. -/
theorem wf_nd_of_keeps {db db' : Db} (hc : db'.consultas = db.consultas)
    (hv : db'.veterinarios = db.veterinarios)
    (hn : db'.nextConsultaId = db.nextConsultaId) (wf : WfDb db)
    (nd : NoDouble db.consultas) : WfDb db' ∧ NoDouble db'.consultas := by
  refine ⟨⟨?_, ?_, ?_, ?_⟩, ?_⟩
  · rw [hc, hn]
    exact wf.idsLt
  · rw [hc]
    exact wf.idsNodup
  · rw [hv]
    exact wf.vetPos
  · rw [hc, hv]
    exact wf.vetFk
  · rw [hc]
    exact nd

/-- Outcome of POST /consultas: either the database is unchanged, or the
request passed every guard — in particular the conflict query found nothing
and the veterinarian exists — and exactly the new 'marcada' row was appended,
consuming the SERIAL id. -/
theorem postConsultas_outcome (db : Db) (uid : Nat) (req : NovaConsultaReq)
    (hojeMs : Int) :
    (postConsultas db uid req hojeMs).2 = db ∨
    ∃ d, req.data = DataField.valid d ∧
      slotTakenPost db.consultas (req.veterinarioId.getD 0) d.dataSql
        d.horaSql = false ∧
      (∃ v ∈ db.veterinarios, v.id = req.veterinarioId.getD 0) ∧
      (postConsultas db uid req hojeMs).2 = { db with
        consultas := db.consultas ++ [Consulta.mk db.nextConsultaId uid
          (req.animalId.getD 0) (req.clinicaId.getD 0)
          (req.veterinarioId.getD 0) d.dataSql d.horaSql req.motivo none
          "marcada"],
        nextConsultaId := db.nextConsultaId + 1 } := by
  unfold postConsultas
  dsimp only
  split
  · exact Or.inl rfl
  split
  · exact Or.inl rfl
  · exact Or.inl rfl
  case _ d heq =>
    split
    · exact Or.inl rfl
    split
    · exact Or.inl rfl
    case _ animal hfa =>
      split
      · exact Or.inl rfl
      split
      · exact Or.inl rfl
      case _ hvetfind =>
        split
        · exact Or.inl rfl
        split
        · exact Or.inl rfl
        case _ hslot =>
          refine Or.inr ⟨d, heq, ?_, ?_, rfl⟩
          · revert hslot
            cases slotTakenPost db.consultas (req.veterinarioId.getD 0)
              d.dataSql d.horaSql <;> simp
          · revert hvetfind
            cases hfv : db.veterinarios.find? (fun v =>
                v.id == req.veterinarioId.getD 0 &&
                v.clinicaId == req.clinicaId.getD 0) with
            | none => intro hvetfind; simp at hvetfind
            | some v =>
              intro _
              refine ⟨v, List.mem_of_find?_eq_some hfv, ?_⟩
              have := List.find?_some hfv
              simp at this
              exact this.1

/-- Outcome of the UPDATE tail of PUT /consultas/:id: either the database is
unchanged, or the conflict query was clean whenever it was consulted, the new
veterinarian id satisfies its foreign key, and the UPDATE rewrote exactly the
rows with the path id. -/
theorem putConsultasCore_outcome (db : Db) (id : Nat)
    (req : UpdateConsultaReq) (orig : Consulta) (novaData novaHora : String)
    (dataProvided : Bool) :
    (putConsultasCore db id req orig novaData novaHora dataProvided).2 = db ∨
    (((dataProvided && (novaData != orig.data || novaHora != orig.hora)
        || truthyId req.veterinarioId &&
          (req.veterinarioId.getD orig.veterinarioId != orig.veterinarioId))
        = true →
        slotTakenPut db.consultas (req.veterinarioId.getD orig.veterinarioId)
          novaData novaHora id = false) ∧
      (∃ v ∈ db.veterinarios,
        v.id = req.veterinarioId.getD orig.veterinarioId) ∧
      (putConsultasCore db id req orig novaData novaHora dataProvided).2 =
        { db with consultas := db.consultas.map (putUpdateRow id
          (match req.motivo with | some m => some m | none => orig.motivo)
          novaData novaHora (req.clinicaId.getD orig.clinicaId)
          (req.veterinarioId.getD orig.veterinarioId)
          (match req.observacoes with
            | some o => some o
            | none => orig.observacoes)) }) := by
  unfold putConsultasCore
  dsimp only
  split
  · exact Or.inl rfl
  case _ hvc =>
    split
    · exact Or.inl rfl
    case _ hconf =>
      split
      · exact Or.inl rfl
      case _ hfk =>
        refine Or.inr ⟨?_, ?_, rfl⟩
        · intro hmud
          cases hS : slotTakenPut db.consultas
              (req.veterinarioId.getD orig.veterinarioId) novaData novaHora
              id with
          | false => rfl
          | true => exact absurd (by rw [hmud, hS]; rfl) hconf
        · have hvet : ¬((db.veterinarios.find? (fun v =>
              v.id == req.veterinarioId.getD orig.veterinarioId)).isNone
                = true) := fun h => hfk (by rw [h]; rfl)
          cases hfv : db.veterinarios.find? (fun v =>
              v.id == req.veterinarioId.getD orig.veterinarioId) with
          | none => rw [hfv] at hvet; simp at hvet
          | some v =>
            refine ⟨v, List.mem_of_find?_eq_some hfv, ?_⟩
            have := List.find?_some hfv
            simpa using this

/-- Outcome of PUT /consultas/:id: either the database is unchanged, or the
row with the path id exists, the data processing produced the new slot
strings, and `putConsultasCore` performed the UPDATE successfully. -/
theorem putConsultas_outcome (db : Db) (uid : Nat) (id : Nat)
    (req : UpdateConsultaReq) (hojeMs : Int) :
    (putConsultas db uid id req hojeMs).2 = db ∨
    ∃ orig novaData novaHora dataProvided,
      db.consultas.find? (fun c => c.id == id) = some orig ∧
      ((req.data = DataField.missing ∧ novaData = orig.data ∧
          novaHora = orig.hora ∧ dataProvided = false) ∨
        (∃ d, req.data = DataField.valid d ∧ novaData = d.dataSql ∧
          novaHora = d.horaSql ∧ dataProvided = true)) ∧
      ((dataProvided && (novaData != orig.data || novaHora != orig.hora)
          || truthyId req.veterinarioId &&
            (req.veterinarioId.getD orig.veterinarioId
              != orig.veterinarioId)) = true →
        slotTakenPut db.consultas (req.veterinarioId.getD orig.veterinarioId)
          novaData novaHora id = false) ∧
      (∃ v ∈ db.veterinarios,
        v.id = req.veterinarioId.getD orig.veterinarioId) ∧
      (putConsultas db uid id req hojeMs).2 =
        { db with consultas := db.consultas.map (putUpdateRow id
          (match req.motivo with | some m => some m | none => orig.motivo)
          novaData novaHora (req.clinicaId.getD orig.clinicaId)
          (req.veterinarioId.getD orig.veterinarioId)
          (match req.observacoes with
            | some o => some o
            | none => orig.observacoes)) } := by
  unfold putConsultas
  split
  · exact Or.inl rfl
  case _ orig horig =>
    split
    · exact Or.inl rfl
    · split
      · exact Or.inl rfl
      case _ d heq =>
        split
        · exact Or.inl rfl
        case _ hpast =>
          rcases putConsultasCore_outcome db id req orig d.dataSql d.horaSql
            true with h | ⟨hconf, hfk, hres⟩
          · exact Or.inl h
          · exact Or.inr ⟨orig, d.dataSql, d.horaSql, true, horig,
              Or.inr ⟨d, heq, rfl, rfl, rfl⟩, hconf, hfk, hres⟩
      case _ heq =>
        rcases putConsultasCore_outcome db id req orig orig.data orig.hora
          false with h | ⟨hconf, hfk, hres⟩
        · exact Or.inl h
        · exact Or.inr ⟨orig, orig.data, orig.hora, false, horig,
            Or.inl ⟨heq, rfl, rfl, rfl⟩, hconf, hfk, hres⟩

/-- Outcome of DELETE /consultas/:id: the database is unchanged or exactly
the rows with the path id were removed. -/
theorem deleteConsultas_outcome (db : Db) (uid : Nat) (tipo : String)
    (id : Nat) (dateMs : String → Int) (hojeMs : Int) :
    (deleteConsultas db uid tipo id dateMs hojeMs).2 = db ∨
    (deleteConsultas db uid tipo id dateMs hojeMs).2 =
      { db with consultas := db.consultas.filter (fun c => !(c.id == id)) } := by
  unfold deleteConsultas
  split
  · exact Or.inl rfl
  · dsimp only
    split
    · exact Or.inl rfl
    split
    · exact Or.inl rfl
    · exact Or.inr rfl

/-- A successful UPDATE of PUT /consultas/:id preserves well-formedness and
the booking invariant: when the slot or veterinarian changed the conflict
query was consulted and came back clean, and when neither changed the moved
row keeps its old slot (the foreign key rules out the falsy vet id 0). -/
theorem putUpdate_preserves (db : Db) (id : Nat) (orig : Consulta)
    (novaData novaHora : String) (dataMudou vetMudou : Bool)
    (m o : Option String) (nc nv : Nat)
    (wf : WfDb db) (nd : NoDouble db.consultas)
    (horig : db.consultas.find? (fun c => c.id == id) = some orig)
    (hconf : (dataMudou || vetMudou) = true →
      slotTakenPut db.consultas nv novaData novaHora id = false)
    (hfk : ∃ v ∈ db.veterinarios, v.id = nv)
    (hdm : dataMudou = false → novaData = orig.data ∧ novaHora = orig.hora)
    (hvm : vetMudou = false → nv = orig.veterinarioId ∨ nv = 0) :
    WfDb { db with consultas := db.consultas.map (putUpdateRow id m novaData novaHora nc nv o) } ∧
    NoDouble (db.consultas.map (putUpdateRow id m novaData novaHora nc nv o)) := by
  have horigmem : orig ∈ db.consultas := List.mem_of_find?_eq_some horig
  have horigid : orig.id = id := by
    have := List.find?_some horig
    simpa using this
  have hnv0 : nv ≠ 0 := by
    obtain ⟨v, hv, hvid⟩ := hfk
    have := wf.vetPos v hv
    omega
  constructor
  · refine ⟨?_, ?_, ?_, ?_⟩
    · intro c hcm
      obtain ⟨c0, hc0, rfl⟩ := List.mem_map.mp hcm
      rw [putUpdateRow_id]
      exact wf.idsLt c0 hc0
    · show (List.map Consulta.id (db.consultas.map
        (putUpdateRow id m novaData novaHora nc nv o))).Nodup
      rw [List.map_map]
      have hcongr : db.consultas.map
          (Consulta.id ∘ putUpdateRow id m novaData novaHora nc nv o) =
          db.consultas.map Consulta.id :=
        List.map_congr_left
          (fun c _ => putUpdateRow_id id m novaData novaHora nc nv o c)
      rw [hcongr]
      exact wf.idsNodup
    · exact wf.vetPos
    · intro c hcm
      obtain ⟨c0, hc0, rfl⟩ := List.mem_map.mp hcm
      by_cases hcid : (c0.id == id) = true
      · rw [putUpdateRow_eq id m novaData novaHora nc nv o c0 hcid]
        exact hfk
      · have hcf : (c0.id == id) = false := by
          revert hcid
          cases (c0.id == id) <;> simp
        rw [putUpdateRow_ne id m novaData novaHora nc nv o c0 hcf]
        exact wf.vetFk c0 hc0
  · have hids : db.consultas.Pairwise (fun a b => a.id ≠ b.id) :=
      List.pairwise_map.mp wf.idsNodup
    have hpair : db.consultas.Pairwise
        (fun a b => NoDoubleRel a b ∧ a.id ≠ b.id) :=
      List.Pairwise.and nd hids
    rw [NoDouble, List.pairwise_map]
    refine List.Pairwise.imp_of_mem ?_ hpair
    intro a b ham hbm hab
    obtain ⟨hrel, hne⟩ := hab
    have key : ∀ x y, x ∈ db.consultas → y ∈ db.consultas → NoDoubleRel x y →
        x.id ≠ y.id → (x.id == id) = true →
        NoDoubleRel (putUpdateRow id m novaData novaHora nc nv o x) y := by
      intro x y hxm hym hxy hxyne hxid
      rw [putUpdateRow_eq id m novaData novaHora nc nv o x hxid]
      have hyid : y.id ≠ id := by
        have hx : x.id = id := by simpa using hxid
        intro h
        exact hxyne (by rw [hx, h])
      cases hmud : (dataMudou || vetMudou) with
      | true =>
        have hslot := hconf hmud
        by_cases hye : y.estado = "cancelada"
        · exact Or.inr (Or.inl hye)
        · refine Or.inr (Or.inr ?_)
          rintro ⟨h1, h2, h3⟩
          exact hye (slotTakenPut_false_elim _ _ _ _ _ hslot y hym h1.symm
            h2.symm h3.symm hyid)
      | false =>
        have hdm' := hdm (by revert hmud; cases dataMudou <;> simp)
        have hvm' := hvm (by revert hmud; cases dataMudou <;> cases vetMudou
          <;> simp)
        have hnveq : nv = orig.veterinarioId := by
          rcases hvm' with h | h
          · exact h
          · exact absurd h hnv0
        have hxorig : x = orig := by
          apply List.inj_on_of_nodup_map wf.idsNodup hxm horigmem
          rw [horigid]
          simpa using hxid
        refine noDoubleRel_congr_left _ x y ?_ ?_ ?_ ?_ hxy
        · rw [hxorig]
          exact hnveq
        · rw [hxorig]
          exact hdm'.1
        · rw [hxorig]
          exact hdm'.2
        · rfl
    by_cases ha : (a.id == id) = true
    · have hbid : (b.id == id) = false := by
        have haeq : a.id = id := by simpa using ha
        have : b.id ≠ id := fun h => hne (by rw [haeq, h])
        simpa using this
      rw [putUpdateRow_ne id m novaData novaHora nc nv o b hbid]
      exact key a b ham hbm hrel hne ha
    · have haf : (a.id == id) = false := by
        revert ha
        cases (a.id == id) <;> simp
      rw [putUpdateRow_ne id m novaData novaHora nc nv o a haf]
      by_cases hb : (b.id == id) = true
      · exact noDoubleRel_symm
          (key b a hbm ham (noDoubleRel_symm hrel) hne.symm hb)
      · have hbf : (b.id == id) = false := by
          revert hb
          cases (b.id == id) <;> simp
        rw [putUpdateRow_ne id m novaData novaHora nc nv o b hbf]
        exact hrel

/-- A successful insert of POST /consultas preserves well-formedness and the
booking invariant. -/
theorem postInsert_preserves (db : Db) (uid aid cid vid : Nat) (d : JSDate)
    (mot : Option String) (wf : WfDb db) (nd : NoDouble db.consultas)
    (hslot : slotTakenPost db.consultas vid d.dataSql d.horaSql = false)
    (hfk : ∃ v ∈ db.veterinarios, v.id = vid) :
    WfDb { db with consultas := db.consultas ++ [Consulta.mk db.nextConsultaId uid aid cid vid d.dataSql d.horaSql mot none "marcada"], nextConsultaId := db.nextConsultaId + 1 } ∧
    NoDouble (db.consultas ++ [Consulta.mk db.nextConsultaId uid aid cid vid d.dataSql d.horaSql mot none "marcada"]) := by
  constructor
  · refine ⟨?_, ?_, ?_, ?_⟩
    · intro c hcm
      rcases List.mem_append.mp hcm with hm | hm
      · exact Nat.lt_trans (wf.idsLt c hm) (Nat.lt_succ_self _)
      · rw [List.mem_singleton] at hm
        subst hm
        exact Nat.lt_succ_self _
    · show (List.map Consulta.id (db.consultas ++ [Consulta.mk
        db.nextConsultaId uid aid cid vid d.dataSql d.horaSql mot none
        "marcada"])).Nodup
      rw [List.map_append, List.nodup_append]
      refine ⟨wf.idsNodup, by simp, ?_⟩
      intro x hx hx2
      simp only [List.map_cons, List.map_nil, List.mem_singleton] at hx2
      obtain ⟨c, hcm, hcx⟩ := List.mem_map.mp hx
      have := wf.idsLt c hcm
      rw [hcx, hx2] at this
      omega
    · exact wf.vetPos
    · intro c hcm
      rcases List.mem_append.mp hcm with hm | hm
      · exact wf.vetFk c hm
      · rw [List.mem_singleton] at hm
        subst hm
        exact hfk
  · rw [NoDouble, List.pairwise_append]
    refine ⟨nd, by simp, ?_⟩
    intro a ham b hbm
    rw [List.mem_singleton] at hbm
    subst hbm
    by_cases hae : a.estado = "cancelada"
    · exact Or.inl hae
    · refine Or.inr (Or.inr ?_)
      rintro ⟨h1, h2, h3⟩
      exact hae (slotTakenPost_false_elim _ _ _ _ hslot a ham h1 h2 h3)

/-- Every modelled operation preserves well-formedness and the booking
invariant. -/
theorem applyOp_preserves (db : Db) (op : ApiOp) (wf : WfDb db)
    (nd : NoDouble db.consultas) :
    WfDb (applyOp db op) ∧ NoDouble (applyOp db op).consultas := by
  cases op with
  | criarUser req code fid =>
    obtain ⟨hc, hv, hn⟩ := postUtilizadores_keeps db req code fid
    exact wf_nd_of_keeps hc hv hn wf nd
  | verificarUser req =>
    obtain ⟨hc, hv, hn⟩ := postVerificar_keeps db req
    exact wf_nd_of_keeps hc hv hn wf nd
  | criarPin req bhash =>
    obtain ⟨hc, hv, hn⟩ := postCriarPin_keeps db req bhash
    exact wf_nd_of_keeps hc hv hn wf nd
  | login req bcompare =>
    have h := postLogin_keeps db req bcompare
    exact wf_nd_of_keeps (congrArg Db.consultas h)
      (congrArg Db.veterinarios h) (congrArg Db.nextConsultaId h) wf nd
  | alterarPin uid req bcompare bhash =>
    obtain ⟨hc, hv, hn⟩ := postAlterarPin_keeps db uid req bcompare bhash
    exact wf_nd_of_keeps hc hv hn wf nd
  | logout uid token =>
    refine wf_nd_of_keeps ?_ ?_ ?_ wf nd <;> rfl
  | agendarVacina uid req nowMs fid =>
    obtain ⟨hc, hv, hn⟩ := postVacinasAgendar_keeps db uid req nowMs fid
    exact wf_nd_of_keeps hc hv hn wf nd
  | postConsulta uid req hojeMs =>
    rcases postConsultas_outcome db uid req hojeMs with h |
      ⟨d, hd, hslot, hfk, hres⟩
    · show WfDb (postConsultas db uid req hojeMs).2 ∧
        NoDouble (postConsultas db uid req hojeMs).2.consultas
      rw [h]
      exact ⟨wf, nd⟩
    · show WfDb (postConsultas db uid req hojeMs).2 ∧
        NoDouble (postConsultas db uid req hojeMs).2.consultas
      rw [hres]
      exact postInsert_preserves db uid (req.animalId.getD 0)
        (req.clinicaId.getD 0) (req.veterinarioId.getD 0) d req.motivo wf nd
        hslot hfk
  | putConsulta uid id req hojeMs =>
    rcases putConsultas_outcome db uid id req hojeMs with h |
      ⟨orig, novaData, novaHora, dataProvided, horig, hdata, hconf, hfk, hres⟩
    · show WfDb (putConsultas db uid id req hojeMs).2 ∧
        NoDouble (putConsultas db uid id req hojeMs).2.consultas
      rw [h]
      exact ⟨wf, nd⟩
    · show WfDb (putConsultas db uid id req hojeMs).2 ∧
        NoDouble (putConsultas db uid id req hojeMs).2.consultas
      rw [hres]
      refine putUpdate_preserves db id orig novaData novaHora
        (dataProvided && (novaData != orig.data || novaHora != orig.hora))
        (truthyId req.veterinarioId &&
          (req.veterinarioId.getD orig.veterinarioId != orig.veterinarioId))
        _ _ _ _ wf nd horig hconf hfk ?_ ?_
      · intro hdm
        rcases hdata with ⟨-, h1, h2, -⟩ | ⟨d, -, h1, h2, hdp⟩
        · exact ⟨h1, h2⟩
        · rw [hdp, Bool.true_and] at hdm
          constructor
          · have := (Bool.or_eq_false_iff.mp hdm).1
            simpa using this
          · have := (Bool.or_eq_false_iff.mp hdm).2
            simpa using this
      · intro hvm
        cases hrv : req.veterinarioId with
        | none =>
          left
          rfl
        | some v =>
          by_cases hv0 : v = 0
          · right
            rw [hv0]
            rfl
          · left
            rw [hrv] at hvm
            have ht : truthyId (some v) = true := by simp [truthyId, hv0]
            rw [ht, Bool.true_and] at hvm
            simpa using hvm
  | deleteConsulta uid tipo id dateMs hojeMs =>
    rcases deleteConsultas_outcome db uid tipo id dateMs hojeMs with h | h
    · show WfDb (deleteConsultas db uid tipo id dateMs hojeMs).2 ∧
        NoDouble (deleteConsultas db uid tipo id dateMs hojeMs).2.consultas
      rw [h]
      exact ⟨wf, nd⟩
    · show WfDb (deleteConsultas db uid tipo id dateMs hojeMs).2 ∧
        NoDouble (deleteConsultas db uid tipo id dateMs hojeMs).2.consultas
      rw [h]
      have hsub : (db.consultas.filter (fun c => !(c.id == id))).Sublist
          db.consultas := List.filter_sublist _
      refine ⟨⟨?_, ?_, ?_, ?_⟩, ?_⟩
      · intro c hcm
        exact wf.idsLt c (hsub.subset hcm)
      · show (List.map Consulta.id
          (db.consultas.filter (fun c => !(c.id == id)))).Nodup
        exact wf.idsNodup.sublist (hsub.map Consulta.id)
      · exact wf.vetPos
      · intro c hcm
        exact wf.vetFk c (hsub.subset hcm)
      · exact nd.sublist hsub

/-- Sequences of modelled operations, executed one at a time, preserve
well-formedness and the booking invariant. -/
theorem runOps_preserves (ops : List ApiOp) : ∀ (db : Db), WfDb db →
    NoDouble db.consultas →
    WfDb (runOps db ops) ∧ NoDouble (runOps db ops).consultas := by
  induction ops with
  | nil =>
    intro db wf nd
    exact ⟨wf, nd⟩
  | cons op ops ih =>
    intro db wf nd
    obtain ⟨wf', nd'⟩ := applyOp_preserves db op wf nd
    exact ih (applyOp db op) wf' nd'

/-- Every modelled operation preserves the absence of cancelled consulta
rows. -/
theorem applyOp_noCancelada (db : Db) (op : ApiOp)
    (h : NoCancelada db.consultas) : NoCancelada (applyOp db op).consultas := by
  cases op with
  | criarUser req code fid =>
    show NoCancelada (postUtilizadores db req code fid).2.consultas
    rw [(postUtilizadores_keeps db req code fid).1]
    exact h
  | verificarUser req =>
    show NoCancelada (postVerificar db req).2.consultas
    rw [(postVerificar_keeps db req).1]
    exact h
  | criarPin req bhash =>
    show NoCancelada (postCriarPin db req bhash).2.consultas
    rw [(postCriarPin_keeps db req bhash).1]
    exact h
  | login req bcompare =>
    show NoCancelada (postLogin db req bcompare).2.2.consultas
    rw [postLogin_keeps db req bcompare]
    exact h
  | alterarPin uid req bcompare bhash =>
    show NoCancelada (postAlterarPin db uid req bcompare bhash).2.consultas
    rw [(postAlterarPin_keeps db uid req bcompare bhash).1]
    exact h
  | logout uid token => exact h
  | agendarVacina uid req nowMs fid =>
    show NoCancelada (postVacinasAgendar db uid req nowMs fid).2.consultas
    rw [(postVacinasAgendar_keeps db uid req nowMs fid).1]
    exact h
  | postConsulta uid req hojeMs =>
    rcases postConsultas_outcome db uid req hojeMs with he | ⟨d, -, -, -, hres⟩
    · show NoCancelada (postConsultas db uid req hojeMs).2.consultas
      rw [he]
      exact h
    · show NoCancelada (postConsultas db uid req hojeMs).2.consultas
      rw [hres]
      intro c hcm
      rcases List.mem_append.mp hcm with hm | hm
      · exact h c hm
      · rw [List.mem_singleton] at hm
        subst hm
        exact (by decide : ("marcada" : String) ≠ "cancelada")
  | putConsulta uid id req hojeMs =>
    rcases putConsultas_outcome db uid id req hojeMs with he |
      ⟨orig, novaData, novaHora, dataProvided, -, -, -, -, hres⟩
    · show NoCancelada (putConsultas db uid id req hojeMs).2.consultas
      rw [he]
      exact h
    · show NoCancelada (putConsultas db uid id req hojeMs).2.consultas
      rw [hres]
      intro c hcm
      obtain ⟨c0, hc0, rfl⟩ := List.mem_map.mp hcm
      rw [putUpdateRow_estado]
      exact h c0 hc0
  | deleteConsulta uid tipo id dateMs hojeMs =>
    rcases deleteConsultas_outcome db uid tipo id dateMs hojeMs with he | he
    · show NoCancelada (deleteConsultas db uid tipo id dateMs hojeMs).2.consultas
      rw [he]
      exact h
    · show NoCancelada (deleteConsultas db uid tipo id dateMs hojeMs).2.consultas
      rw [he]
      intro c hcm
      exact h c (List.mem_of_mem_filter hcm)

/-- Sequences of modelled operations never produce a cancelled consulta
row. -/
theorem runOps_noCancelada (ops : List ApiOp) : ∀ (db : Db),
    NoCancelada db.consultas → NoCancelada (runOps db ops).consultas := by
  induction ops with
  | nil =>
    intro db h
    exact h
  | cons op ops ih =>
    intro db h
    exact ih (applyOp db op) (applyOp_noCancelada db op h)

/-- When the `veterinarioMudou` flag of PUT /consultas/:id is false, the new
veterinarian id is the original one — unless the request submitted the falsy
id 0, which JavaScript truthiness hides from the flag. -/
theorem vetMudou_false_cases (req : UpdateConsultaReq) (orig : Consulta)
    (h : (truthyId req.veterinarioId &&
      (req.veterinarioId.getD orig.veterinarioId != orig.veterinarioId))
      = false) :
    req.veterinarioId.getD orig.veterinarioId = orig.veterinarioId ∨
    req.veterinarioId.getD orig.veterinarioId = 0 := by
  cases hrv : req.veterinarioId with
  | none =>
    left
    rfl
  | some v =>
    by_cases hv0 : v = 0
    · right
      rw [hv0]
      rfl
    · left
      rw [hrv] at h
      have ht : truthyId (some v) = true := by simp [truthyId, hv0]
      rw [ht, Bool.true_and] at h
      simpa using h

/-- On a well-formed board satisfying the booking invariant, a PUT whose
target slot is occupied by another non-cancelled row must have changed the
slot or the veterinarian: the conflict query will therefore be consulted. -/
theorem putMudou_of_conflict (db : Db) (id : Nat) (orig : Consulta)
    (novaData novaHora : String) (dataMudou vetMudou : Bool) (nv : Nat)
    (wf : WfDb db) (nd : NoDouble db.consultas)
    (horig : db.consultas.find? (fun c => c.id == id) = some orig)
    (hestado : orig.estado ≠ "cancelada")
    (hdm : dataMudou = false → novaData = orig.data ∧ novaHora = orig.hora)
    (hvm : vetMudou = false → nv = orig.veterinarioId ∨ nv = 0)
    (hslot : slotTakenPut db.consultas nv novaData novaHora id = true) :
    (dataMudou || vetMudou) = true := by
  by_contra h
  have hor : (dataMudou || vetMudou) = false := by
    revert h
    cases (dataMudou || vetMudou) <;> simp
  have hdmf : dataMudou = false := by
    revert hor
    cases dataMudou <;> simp
  have hvmf : vetMudou = false := by
    revert hor
    cases dataMudou <;> cases vetMudou <;> simp
  obtain ⟨h1, h2⟩ := hdm hdmf
  unfold slotTakenPut at hslot
  obtain ⟨c, hcm, hcp⟩ := List.any_eq_true.mp hslot
  simp only [Bool.and_eq_true, beq_iff_eq, bne_iff_ne] at hcp
  obtain ⟨⟨⟨⟨hcv, hcd⟩, hch⟩, hce⟩, hci⟩ := hcp
  rcases hvm hvmf with hnv | hnv
  · have horigmem := List.mem_of_find?_eq_some horig
    have horigid : orig.id = id := by simpa using List.find?_some horig
    have hcne : c ≠ orig := fun hh => hci (hh ▸ horigid)
    rcases List.Pairwise.forall noDoubleRel_symm nd hcm horigmem hcne with
      hx | hx | hx
    · exact hce hx
    · exact hestado hx
    · exact hx ⟨by rw [hcv, hnv], by rw [hcd, h1], by rw [hch, h2]⟩
  · obtain ⟨v, hv, hvid⟩ := wf.vetFk c hcm
    have := wf.vetPos v hv
    rw [hcv, hnv] at hvid
    omega

/-- C2 counterexample: with `DEBUG_MODE` set and `?debug=true` on the request,
a request whose bearer token sits in `invalidated_tokens` is not rejected with
403 — the debug middleware attaches a fake veterinarian user and
`authenticateToken` passes it straight to the handler. -/
theorem debug_bypass_skips_blacklist :
    blDb.invalidatedTokens.contains "tokX" = true ∧
    authPipeline { debugMode := true }
      { debugQuery := true, authHeader := some "Bearer tokX" } blDb noVerify =
      AuthOutcome.ok debugUser "debug-token" := by
  decide

/-- C2 (amended): for every request not served through the debug bypass
(`DEBUG_MODE === 'true'` together with `?debug=true`), a bearer token found in
`invalidated_tokens` is rejected with 403 before the handler runs, and in
particular after POST /utilizadores/logout inserts a token every later
non-debug request presenting it is rejected with 403. -/
theorem blacklist_rejects_revoked_tokens :
    ∀ (env : AuthEnv) (req : AuthRequest) (db : Db)
      (jwtVerify : String → Option AuthUser) (t : String),
      ¬(env.debugMode = true ∧ req.debugQuery = true) →
      bearerToken req.authHeader = some t →
      (db.invalidatedTokens.contains t = true →
        authPipeline env req db jwtVerify = AuthOutcome.rejected 403) ∧
      (∀ uid, authPipeline env req (postLogout db uid t).2 jwtVerify =
        AuthOutcome.rejected 403) := by
  intro env req db jwtVerify t hnd hb
  have hdbg : (env.debugMode && req.debugQuery) = false := by
    cases hm : env.debugMode <;> cases hq : req.debugQuery <;> simp_all
  constructor
  · intro hcont
    have hmem : t ∈ db.invalidatedTokens := by simpa using hcont
    unfold authPipeline
    rw [hdbg, hb]
    simp [hmem]
  · intro uid
    have hmem : t ∈ ((postLogout db uid t).2).invalidatedTokens := by
      simp [postLogout]
    unfold authPipeline
    rw [hdbg, hb]
    simp [hmem]

/-- C2 witness: a concrete non-debug request carrying the blacklisted token
"tokX" is rejected with 403. -/
theorem blacklist_rejects_revoked_tokens_witness :
    authPipeline { debugMode := false }
      { debugQuery := false, authHeader := some "Bearer tokX" } blDb noVerify =
      AuthOutcome.rejected 403 :=
  (blacklist_rejects_revoked_tokens { debugMode := false }
    { debugQuery := false, authHeader := some "Bearer tokX" } blDb noVerify
    "tokX" (by simp) (by decide)).1 (by decide)

/-- C3 counterexample: POST /utilizadores/criar-pin accepts the PIN "abcdef" —
six characters but not six decimal digits — with 200, and changes the stored
pin hash. -/
theorem criar_pin_accepts_nondigit_pin :
    "abcdef".length = 6 ∧ ("abcdef".toList.all Char.isDigit) = false ∧
    (postCriarPin sampleDb { email := some "ana@ex.pt", pin := some "abcdef" }
      hashSim).1 = 200 ∧
    (postCriarPin sampleDb { email := some "ana@ex.pt", pin := some "abcdef" }
      hashSim).2 ≠ sampleDb := by
  refine ⟨by decide, by decide, by decide, by decide⟩

/-- C3 (amended): the PIN endpoints validate only the length of the
`String(...)` form of a submitted PIN, not its digits: whenever the submitted
`pin` (for criar-pin) — or the submitted `pinAtual`, or the submitted
`novoPin` (for alterar-pin) — is absent or does not have exactly 6 characters,
the response is HTTP 400 and the database, in particular the stored PIN hash,
is unchanged. -/
theorem pin_endpoints_reject_wrong_length :
    (∀ (db : Db) (req : CriarPinReq) (bhash : String → String),
      (∀ p, req.pin = some p → p.length ≠ 6) →
      postCriarPin db req bhash = (400, db)) ∧
    (∀ (db : Db) (uid : Nat) (req : AlterarPinReq)
      (bcompare : String → String → Bool) (bhash : String → String),
      ((∀ p, req.pinAtual = some p → p.length ≠ 6) ∨
        (∀ p, req.novoPin = some p → p.length ≠ 6)) →
      postAlterarPin db uid req bcompare bhash = (400, db)) := by
  constructor
  · intro db req bhash h
    unfold postCriarPin
    by_cases hg : (!truthyStr req.email || !truthyStr req.pin) = true
    · rw [if_pos hg]
    · rw [if_neg hg]
      have hp : ∃ p, req.pin = some p ∧ p.isEmpty = false := by
        cases hpin : req.pin with
        | none => exfalso; apply hg; simp [truthyStr, hpin]
        | some p =>
          refine ⟨p, rfl, ?_⟩
          by_cases he : p.isEmpty
          · exfalso; apply hg; simp [truthyStr, hpin, he]
          · simpa using he
      obtain ⟨p, hpin, -⟩ := hp
      have hlen : ((req.pin.getD "").length != 6) = true := by
        rw [hpin]
        simpa using h p hpin
      simp only [hlen, if_true]
  · intro db uid req bcompare bhash h
    unfold postAlterarPin
    by_cases hg : (!truthyStr req.pinAtual || !truthyStr req.novoPin) = true
    · rw [if_pos hg]
    · rw [if_neg hg]
      have hA : ∃ p, req.pinAtual = some p ∧ p.isEmpty = false := by
        cases hpin : req.pinAtual with
        | none => exfalso; apply hg; simp [truthyStr, hpin]
        | some p =>
          refine ⟨p, rfl, ?_⟩
          by_cases he : p.isEmpty
          · exfalso; apply hg; simp [truthyStr, hpin, he]
          · simpa using he
      have hN : ∃ p, req.novoPin = some p ∧ p.isEmpty = false := by
        cases hpin : req.novoPin with
        | none => exfalso; apply hg; simp [truthyStr, hpin]
        | some p =>
          refine ⟨p, rfl, ?_⟩
          by_cases he : p.isEmpty
          · exfalso; apply hg; simp [truthyStr, hpin, he]
          · simpa using he
      obtain ⟨pa, hpa, -⟩ := hA
      obtain ⟨pn, hpn, -⟩ := hN
      have hlen : ((req.pinAtual.getD "").length != 6
          || (req.novoPin.getD "").length != 6) = true := by
        rcases h with h | h
        · rw [hpa]; simp [h pa hpa]
        · rw [hpn]; simp [h pn hpn]
      simp only [hlen, if_true]

/-- C3 witness: a concrete 5-character PIN is rejected with 400 by criar-pin
leaving the database unchanged, and a concrete 7-character novoPin is rejected
with 400 by alterar-pin. -/
theorem pin_endpoints_reject_wrong_length_witness :
    postCriarPin sampleDb { email := some "ana@ex.pt", pin := some "12345" }
      hashSim = (400, sampleDb) ∧
    postAlterarPin sampleDb 1
      { pinAtual := some "123456", novoPin := some "1234567" } cmpSim hashSim =
      (400, sampleDb) :=
  ⟨pin_endpoints_reject_wrong_length.1 sampleDb
      { email := some "ana@ex.pt", pin := some "12345" } hashSim
      (by intro p hp; cases hp; decide),
    pin_endpoints_reject_wrong_length.2 sampleDb 1
      { pinAtual := some "123456", novoPin := some "1234567" } cmpSim hashSim
      (Or.inr (by intro p hp; cases hp; decide))⟩

/-- C5 counterexample: a past-dated vaccine-scheduling request whose animal
lookup fails is answered 404, not 400 — the existence/ownership guards of
POST /vacinas/agendar run before the past-date check. -/
theorem vacinas_past_date_can_return_404 :
    pastDia.ms < 0 ∧
    postVacinasAgendar emptyDb 1 vacPastReq 0 1 = (404, emptyDb) := by
  decide

/-- C5 (amended): POST /consultas answers 400 and leaves the database
unchanged on every request whose parsed date lies before midnight of today;
POST /vacinas/agendar never inserts a row for a request whose parsed
data_agendada lies before the current instant, and answers it 400 when the
animal-ownership and vaccine-type lookups succeed — requests failing those
earlier guards are answered 404 instead, still inserting nothing. -/
theorem past_date_rejection :
    (∀ (db : Db) (uid : Nat) (req : NovaConsultaReq) (hojeMs : Int)
      (d : JSDate), req.data = DataField.valid d → d.ms < hojeMs →
      postConsultas db uid req hojeMs = (400, db)) ∧
    (∀ (db : Db) (uid : Nat) (req : AgendarVacinaReq) (nowMs : Int)
      (freshId : Nat) (d : JSDate),
      req.dataAgendada = DataField.valid d → d.ms < nowMs →
      (postVacinasAgendar db uid req nowMs freshId).2 = db ∧
      (∀ a, db.animais.find? (fun x => x.id == req.animalId.getD 0 &&
          x.tutorId == uid) = some a →
        ∀ t, db.tiposVacina.find?
            (fun x => x.id == req.tipoVacinaId.getD 0) = some t →
          truthyId req.animalId = true → truthyId req.tipoVacinaId = true →
          postVacinasAgendar db uid req nowMs freshId = (400, db))) := by
  constructor
  · intro db uid req hojeMs d hd hpast
    unfold postConsultas
    by_cases hg : (!truthyId req.animalId || !truthyId req.clinicaId
        || !truthyId req.veterinarioId || req.data.isMissing) = true
    · rw [if_pos hg]
    · rw [if_neg hg, hd]
      simp only [if_pos hpast]
  · intro db uid req nowMs freshId d hd hpast
    constructor
    · unfold postVacinasAgendar
      by_cases hg : (!truthyId req.animalId || !truthyId req.tipoVacinaId
          || req.dataAgendada.isMissing) = true
      · rw [if_pos hg]
      · rw [if_neg hg]
        cases hfa : db.animais.find? (fun x => x.id == req.animalId.getD 0 &&
            x.tutorId == uid) with
        | none => simp [hfa]
        | some a =>
          cases hft : db.tiposVacina.find?
              (fun x => x.id == req.tipoVacinaId.getD 0) with
          | none => simp [hfa, hft]
          | some t => simp [hfa, hft, hd, hpast]
    · intro a hfa t hft hta htt
      unfold postVacinasAgendar
      have hg : (!truthyId req.animalId || !truthyId req.tipoVacinaId
          || req.dataAgendada.isMissing) = false := by
        rw [hta, htt, hd]; rfl
      rw [if_neg (by simp [hg])]
      simp [hfa, hft, hd, hpast]

/-- C5 witness: a past-dated consulta request on the sample database is
answered (400, unchanged), and a past-dated vaccine request whose animal and
type lookups succeed is answered (400, unchanged). -/
theorem past_date_rejection_witness :
    postConsultas sampleDb 1
      { animalId := some 1, clinicaId := some 1, veterinarioId := some 1,
        data := DataField.valid pastDia, motivo := none } 0 = (400, sampleDb) ∧
    postVacinasAgendar sampleDb 1 vacPastReq 0 1 = (400, sampleDb) :=
  ⟨past_date_rejection.1 sampleDb 1
      { animalId := some 1, clinicaId := some 1, veterinarioId := some 1,
        data := DataField.valid pastDia, motivo := none } 0 pastDia rfl
      (by decide),
    (past_date_rejection.2 sampleDb 1 vacPastReq 0 1 pastDia rfl
      (by decide)).2 sampleAnimal (by decide)
      { id := 1, nome := "raiva", descricao := "anual" } (by decide)
      (by decide) (by decide)⟩

/-- C7 counterexample: a login request with a known email but no submitted
PIN is answered 400, not 401, so "every other case returns HTTP 401" fails;
no token is issued. -/
theorem login_missing_pin_returns_400 :
    (postLogin sampleDb { email := some "ana@ex.pt", pin := none } cmpSim).1
      = 400 ∧
    (postLogin sampleDb { email := some "ana@ex.pt", pin := none } cmpSim).1
      ≠ 401 ∧
    (postLogin sampleDb { email := some "ana@ex.pt", pin := none } cmpSim).2.1
      = none := by
  decide

/-- C7 (amended): POST /utilizadores/login returns 200 with a signed token
expiring in 3 hours exactly when email and PIN are both submitted (truthy),
a user row with that email exists, stores a PIN hash, and the submitted PIN
matches the hash under the compare oracle; otherwise no token is returned,
with status 400 when email or PIN is missing and 401 in every other failing
case; the database is unchanged in all cases. -/
theorem login_characterisation :
    ∀ (db : Db) (req : LoginReq) (bcompare : String → String → Bool),
      ((postLogin db req bcompare).2.2 = db) ∧
      ((postLogin db req bcompare).1 = 200 ↔
        ∃ e p u h, req.email = some e ∧ e.isEmpty = false ∧
          req.pin = some p ∧ p.isEmpty = false ∧
          db.users.find? (fun x => x.email == e) = some u ∧
          u.pin = some h ∧ bcompare p h = true) ∧
      ((postLogin db req bcompare).1 = 200 →
        ∃ u, db.users.find? (fun x => x.email == req.email.getD "") = some u ∧
          (postLogin db req bcompare).2.1 = some
            { payloadId := u.id, payloadEmail := u.email,
              expiresInHours := 3 }) ∧
      ((postLogin db req bcompare).1 ≠ 200 →
        (postLogin db req bcompare).2.1 = none ∧
        ((postLogin db req bcompare).1 = 400 ∨
          (postLogin db req bcompare).1 = 401)) ∧
      ((!truthyStr req.email || !truthyStr req.pin) = true →
        (postLogin db req bcompare).1 = 400) ∧
      (truthyStr req.email = true → truthyStr req.pin = true →
        (postLogin db req bcompare).1 ≠ 200 →
        (postLogin db req bcompare).1 = 401) := by
  intro db req bcompare
  by_cases hg : (!truthyStr req.email || !truthyStr req.pin) = true
  · have hval : postLogin db req bcompare = (400, none, db) := by
      unfold postLogin
      rw [if_pos hg]
    rw [hval]
    refine ⟨rfl, ?_, ?_, ?_, fun _ => rfl, ?_⟩
    · constructor
      · intro h; exact absurd h (by simp)
      · rintro ⟨e, p, u, hsh, he, hene, hp, hpne, -, -, -⟩
        rw [he, hp] at hg
        simp [truthyStr, hene, hpne] at hg
    · intro h; exact absurd h (by simp)
    · intro _; exact ⟨rfl, Or.inl rfl⟩
    · intro he hp _
      rw [he, hp] at hg
      simp at hg
  · have hgb : (!truthyStr req.email || !truthyStr req.pin) = false := by
      revert hg
      cases (!truthyStr req.email || !truthyStr req.pin) <;> simp
    have hemail : ∃ e, req.email = some e ∧ e.isEmpty = false := by
      cases he : req.email with
      | none => exact absurd (by simp [truthyStr, he]) hg
      | some e =>
        refine ⟨e, rfl, ?_⟩
        by_cases hee : e.isEmpty
        · exact absurd (by simp [truthyStr, he, hee]) hg
        · simpa using hee
    have hpin : ∃ p, req.pin = some p ∧ p.isEmpty = false := by
      cases hp : req.pin with
      | none => exact absurd (by simp [truthyStr, hp]) hg
      | some p =>
        refine ⟨p, rfl, ?_⟩
        by_cases hpp : p.isEmpty
        · exact absurd (by simp [truthyStr, hp, hpp]) hg
        · simpa using hpp
    obtain ⟨e, he, hene⟩ := hemail
    obtain ⟨p, hp, hpne⟩ := hpin
    have hgetE : req.email.getD "" = e := by rw [he]; rfl
    have hgetP : req.pin.getD "" = p := by rw [hp]; rfl
    cases hf : db.users.find? (fun x => x.email == e) with
    | none =>
      have hval : postLogin db req bcompare = (401, none, db) := by
        simp [postLogin, hgb, hgetE, hgetP, hf]
      rw [hval]
      refine ⟨rfl, ?_, ?_, fun _ => ⟨rfl, Or.inr rfl⟩,
        fun h => absurd h (by simp [hgb]), fun _ _ _ => rfl⟩
      · constructor
        · intro h; exact absurd h (by simp)
        · rintro ⟨e', p', u, hsh, he', -, -, -, hf', -, -⟩
          rw [he] at he'
          cases he'
          rw [hf] at hf'
          cases hf'
      · intro h; exact absurd h (by simp)
    | some u =>
      cases hupin : u.pin with
      | none =>
        have hval : postLogin db req bcompare = (401, none, db) := by
          simp [postLogin, hgb, hgetE, hgetP, hf, hupin]
        rw [hval]
        refine ⟨rfl, ?_, ?_, fun _ => ⟨rfl, Or.inr rfl⟩,
          fun h => absurd h (by simp [hgb]), fun _ _ _ => rfl⟩
        · constructor
          · intro h; exact absurd h (by simp)
          · rintro ⟨e', p', u', hsh, he', -, -, -, hf', hu', -⟩
            rw [he] at he'
            cases he'
            rw [hf] at hf'
            cases hf'
            rw [hupin] at hu'
            cases hu'
        · intro h; exact absurd h (by simp)
      | some storedHash =>
        by_cases hc : bcompare p storedHash = true
        · have hval : postLogin db req bcompare =
              (200, some (SignedToken.mk u.id u.email 3), db) := by
            simp [postLogin, hgb, hgetE, hgetP, hf, hupin, hc]
          rw [hval]
          refine ⟨rfl, ?_, ?_, ?_, fun h => absurd h (by simp [hgb]),
            fun _ _ habs => absurd rfl habs⟩
          · constructor
            · intro _
              exact ⟨e, p, u, storedHash, he, hene, hp, hpne, hf, hupin, hc⟩
            · intro _; rfl
          · intro _
            refine ⟨u, ?_, rfl⟩
            simp only [hgetE]
            exact hf
          · intro habs; exact absurd rfl habs
        · have hcf : bcompare p storedHash = false := by
            revert hc
            cases bcompare p storedHash <;> simp
          have hval : postLogin db req bcompare = (401, none, db) := by
            simp [postLogin, hgb, hgetE, hgetP, hf, hupin, hcf]
          rw [hval]
          refine ⟨rfl, ?_, ?_, fun _ => ⟨rfl, Or.inr rfl⟩,
            fun h => absurd h (by simp [hgb]), fun _ _ _ => rfl⟩
          · constructor
            · intro h; exact absurd h (by simp)
            · rintro ⟨e', p', u', hsh, he', -, hp', -, hf', hu', hcmp⟩
              rw [he] at he'
              cases he'
              rw [hp] at hp'
              cases hp'
              rw [hf] at hf'
              cases hf'
              rw [hupin] at hu'
              cases hu'
              exact absurd hcmp hc
          · intro h; exact absurd h (by simp)

/-- C7 witness: on the sample database, the login request with Ana's email
and the matching PIN succeeds with 200, and the one with a wrong PIN — both
fields submitted — is answered 401. -/
theorem login_characterisation_witness :
    (postLogin sampleDb { email := some "ana@ex.pt", pin := some "123456" }
      cmpSim).1 = 200 ∧
    (postLogin sampleDb { email := some "ana@ex.pt", pin := some "999999" }
      cmpSim).1 = 401 :=
  ⟨(login_characterisation sampleDb
      { email := some "ana@ex.pt", pin := some "123456" } cmpSim).2.1.mpr
      ⟨"ana@ex.pt", "123456", anaUser, "h123456", rfl, by decide, rfl,
        by decide, by decide, rfl, by decide⟩,
    (login_characterisation sampleDb
      { email := some "ana@ex.pt", pin := some "999999" } cmpSim).2.2.2.2.2
      (by decide) (by decide) (by decide)⟩

/-- C8: POST /utilizadores/verificar succeeds with 200 exactly when the
submitted (truthy) codigoVerificacao equals the code stored on the user row
found by the submitted email; on success that row gets `verificado = true`
and its stored code cleared (the update touches exactly the rows with that
email), and on any failure the database is unchanged. -/
theorem verificar_characterisation :
    ∀ (db : Db) (req : VerificarReq),
      ((postVerificar db req).1 = 200 ↔
        ∃ e c u, req.email = some e ∧ e.isEmpty = false ∧
          req.codigoVerificacao = some c ∧ c.isEmpty = false ∧
          db.users.find? (fun x => x.email == e) = some u ∧
          u.codigoVerificacao = some c) ∧
      ((postVerificar db req).1 = 200 → ∀ e, req.email = some e →
        (postVerificar db req).2 = { db with users := db.users.map (fun u =>
          if u.email == e then
            { u with codigoVerificacao := none, verificado := true }
          else u) }) ∧
      ((postVerificar db req).1 ≠ 200 → (postVerificar db req).2 = db) := by
  intro db req
  by_cases hg : (!truthyStr req.email || !truthyStr req.codigoVerificacao)
      = true
  · have hval : postVerificar db req = (400, db) := by
      unfold postVerificar
      rw [if_pos hg]
    rw [hval]
    refine ⟨?_, ?_, fun _ => rfl⟩
    · constructor
      · intro h; exact absurd h (by simp)
      · rintro ⟨e, c, u, he, hene, hc, hcne, -, -⟩
        rw [he, hc] at hg
        simp [truthyStr, hene, hcne] at hg
    · intro h; exact absurd h (by simp)
  · have hgb : (!truthyStr req.email || !truthyStr req.codigoVerificacao)
        = false := by
      revert hg
      cases (!truthyStr req.email || !truthyStr req.codigoVerificacao) <;> simp
    have hemail : ∃ e, req.email = some e ∧ e.isEmpty = false := by
      cases he : req.email with
      | none => exact absurd (by simp [truthyStr, he]) hg
      | some e =>
        refine ⟨e, rfl, ?_⟩
        by_cases hee : e.isEmpty
        · exact absurd (by simp [truthyStr, he, hee]) hg
        · simpa using hee
    have hcode : ∃ c, req.codigoVerificacao = some c ∧ c.isEmpty = false := by
      cases hc : req.codigoVerificacao with
      | none => exact absurd (by simp [truthyStr, hc]) hg
      | some c =>
        refine ⟨c, rfl, ?_⟩
        by_cases hcc : c.isEmpty
        · exact absurd (by simp [truthyStr, hc, hcc]) hg
        · simpa using hcc
    obtain ⟨e, he, hene⟩ := hemail
    obtain ⟨c, hc, hcne⟩ := hcode
    have hgetE : req.email.getD "" = e := by rw [he]; rfl
    have hgetC : req.codigoVerificacao.getD "" = c := by rw [hc]; rfl
    cases hf : db.users.find? (fun x => x.email == e) with
    | none =>
      have hval : postVerificar db req = (404, db) := by
        simp [postVerificar, hgb, hgetE, hgetC, hf]
      rw [hval]
      refine ⟨?_, ?_, fun _ => rfl⟩
      · constructor
        · intro h; exact absurd h (by simp)
        · rintro ⟨e', c', u, he', -, -, -, hf', -⟩
          rw [he] at he'
          cases he'
          rw [hf] at hf'
          cases hf'
      · intro h; exact absurd h (by simp)
    | some user =>
      by_cases hq : user.codigoVerificacao = some c
      · have hbne : (user.codigoVerificacao != some c) = false := by
          simp [hq]
        have hval : postVerificar db req =
            (200, { db with users := db.users.map (fun u =>
              if u.email == e then
                { u with codigoVerificacao := none, verificado := true }
              else u) }) := by
          simp only [postVerificar, hgb, Bool.false_eq_true, if_false, hgetE,
            hgetC, hf, hbne]
        rw [hval]
        refine ⟨?_, ?_, ?_⟩
        · exact ⟨fun _ => ⟨e, c, user, he, hene, hc, hcne, hf, hq⟩,
            fun _ => rfl⟩
        · intro _ e' he'
          rw [he] at he'
          cases he'
          rfl
        · intro habs; exact absurd rfl habs
      · have hbne : (user.codigoVerificacao != some c) = true := by
          simp [hq]
        have hval : postVerificar db req = (400, db) := by
          simp [postVerificar, hgb, hgetE, hgetC, hf, hbne]
        rw [hval]
        refine ⟨?_, ?_, fun _ => rfl⟩
        · constructor
          · intro h; exact absurd h (by simp)
          · rintro ⟨e', c', u', he', -, hc', -, hf', hq'⟩
            rw [he] at he'
            cases he'
            rw [hc] at hc'
            cases hc'
            rw [hf] at hf'
            cases hf'
            exact absurd hq' hq
        · intro h; exact absurd h (by simp)

/-- C8 witness: on the sample database, verifying Ana with the stored code
succeeds with 200, and with a wrong code the status is not 200 and the
database is unchanged. -/
theorem verificar_characterisation_witness :
    (postVerificar sampleDb
      { email := some "ana@ex.pt", codigoVerificacao := some "654321" }).1
      = 200 ∧
    (postVerificar sampleDb
      { email := some "ana@ex.pt", codigoVerificacao := some "111111" }).2
      = sampleDb :=
  ⟨(verificar_characterisation sampleDb
      { email := some "ana@ex.pt", codigoVerificacao := some "654321" }).1.mpr
      ⟨"ana@ex.pt", "654321", anaUser, rfl, by decide, rfl, by decide,
        by decide, rfl⟩,
    (verificar_characterisation sampleDb
      { email := some "ana@ex.pt", codigoVerificacao := some "111111" }).2.2
      (by decide)⟩

/-- C6: POST /utilizadores answers 400 and inserts nothing whenever the
submitted email or telemovel already belongs to a user row (every failure
path of the route answers 400); when all fields are present, the phone
matches the regex and both values are fresh, it appends exactly one user row
with `verificado = false` and the generated code, answering 201. -/
theorem registration_unique_email_phone :
    ∀ (db : Db) (req : CriarUserReq) (code : String) (freshId : Nat),
      (∀ e t, req.email = some e → req.telemovel = some t →
        (∃ u ∈ db.users, u.email = e ∨ u.telemovel = t) →
        postUtilizadores db req code freshId = (400, db)) ∧
      (∀ nome e t tipo, req.nome = some nome → req.email = some e →
        req.telemovel = some t → req.tipo = some tipo →
        nome.isEmpty = false → e.isEmpty = false → t.isEmpty = false →
        tipo.isEmpty = false → telemovelRegexTest t = true →
        (∀ u ∈ db.users, u.email ≠ e ∧ u.telemovel ≠ t) →
        postUtilizadores db req code freshId = (201, { db with users :=
          db.users ++ [User.mk freshId nome e t tipo false (some code)
            none] })) := by
  intro db req code freshId
  constructor
  · intro e t he ht hdup
    by_cases hg : (!truthyStr req.nome || !truthyStr req.email
        || !truthyStr req.telemovel || !truthyStr req.tipo) = true
    · unfold postUtilizadores
      rw [if_pos hg]
    · have hgb : (!truthyStr req.nome || !truthyStr req.email
          || !truthyStr req.telemovel || !truthyStr req.tipo) = false := by
        revert hg
        cases (!truthyStr req.nome || !truthyStr req.email
          || !truthyStr req.telemovel || !truthyStr req.tipo) <;> simp
      have hgetE : req.email.getD "" = e := by rw [he]; rfl
      have hgetT : req.telemovel.getD "" = t := by rw [ht]; rfl
      by_cases hr : telemovelRegexTest t = true
      · obtain ⟨u, hu, hor⟩ := hdup
        by_cases hae : db.users.any (fun x => x.email == e) = true
        · simp [postUtilizadores, hgb, hgetE, hgetT, hr, hae]
        · have hat : db.users.any (fun x => x.telemovel == t) = true := by
            rcases hor with h1 | h2
            · exact absurd (List.any_eq_true.mpr ⟨u, hu, by simp [h1]⟩) hae
            · exact List.any_eq_true.mpr ⟨u, hu, by simp [h2]⟩
          have haef : db.users.any (fun x => x.email == e) = false := by
            revert hae
            cases db.users.any (fun x => x.email == e) <;> simp
          simp [postUtilizadores, hgb, hgetE, hgetT, hr, haef, hat]
      · have hrf : telemovelRegexTest t = false := by
          revert hr
          cases telemovelRegexTest t <;> simp
        simp [postUtilizadores, hgb, hgetT, hrf]
  · intro nome e t tipo hnome he ht htipo hn1 he1 ht1 htp1 hr hfresh
    have hgb : (!truthyStr req.nome || !truthyStr req.email
        || !truthyStr req.telemovel || !truthyStr req.tipo) = false := by
      rw [hnome, he, ht, htipo]
      simp [truthyStr, hn1, he1, ht1, htp1]
    have hgetN : req.nome.getD "" = nome := by rw [hnome]; rfl
    have hgetE : req.email.getD "" = e := by rw [he]; rfl
    have hgetT : req.telemovel.getD "" = t := by rw [ht]; rfl
    have hgetTp : req.tipo.getD "" = tipo := by rw [htipo]; rfl
    have haef : db.users.any (fun x => x.email == e) = false := by
      rw [List.any_eq_false]
      intro u hu
      simp [(hfresh u hu).1]
    have hatf : db.users.any (fun x => x.telemovel == t) = false := by
      rw [List.any_eq_false]
      intro u hu
      simp [(hfresh u hu).2]
    simp [postUtilizadores, hgb, hgetN, hgetE, hgetT, hgetTp, hr, haef, hatf]

/-- C6 witness: registering a fresh user on the empty database inserts one
unverified row with 201, and registering Ana's email again on the sample
database is answered 400 with the database unchanged. -/
theorem registration_unique_email_phone_witness :
    postUtilizadores emptyDb
      { nome := some "Rui", email := some "rui@ex.pt",
        telemovel := some "919999999", tipo := some "tutor" } "123456" 1 =
      (201, { emptyDb with users := [User.mk 1 "Rui" "rui@ex.pt" "919999999"
        "tutor" false (some "123456") none] }) ∧
    postUtilizadores sampleDb
      { nome := some "Rui", email := some "ana@ex.pt",
        telemovel := some "919999999", tipo := some "tutor" } "123456" 2 =
      (400, sampleDb) :=
  ⟨(registration_unique_email_phone emptyDb
      { nome := some "Rui", email := some "rui@ex.pt",
        telemovel := some "919999999", tipo := some "tutor" } "123456" 1).2
      "Rui" "rui@ex.pt" "919999999" "tutor" rfl rfl rfl rfl (by decide)
      (by decide) (by decide) (by decide) (by decide) (by decide),
    (registration_unique_email_phone sampleDb
      { nome := some "Rui", email := some "ana@ex.pt",
        telemovel := some "919999999", tipo := some "tutor" } "123456" 2).1
      "ana@ex.pt" "919999999" rfl rfl ⟨anaUser, by decide, Or.inl (by decide)⟩⟩

/-- C4: for an authenticated user whose tipo is not veterinario, reading
another tutor's animal, another user's consulta list, or another tutor's
animal's exams is answered 403 with no resource data. -/
theorem cross_tutor_access_forbidden :
    ∀ (db : Db) (user : AuthUser) (animalId paramUserId : Nat),
      user.tipo ≠ "veterinario" →
      ((∃ a ∈ db.animais, a.id = animalId) →
        (∀ a ∈ db.animais, a.id = animalId → a.tutorId ≠ user.id) →
        getAnimalById db user animalId = (403, none)) ∧
      (paramUserId ≠ user.id →
        getConsultasByUser db user paramUserId = (403, none)) ∧
      ((∀ a ∈ db.animais, a.id = animalId → a.tutorId ≠ user.id) →
        getAnimalExames db user animalId = (403, none)) := by
  intro db user animalId paramUserId htipo
  refine ⟨?_, ?_, ?_⟩
  · intro hex hother
    cases hf : db.animais.find? (fun a => a.id == animalId) with
    | none =>
      exfalso
      obtain ⟨a, ha, hid⟩ := hex
      have := List.find?_eq_none.mp hf a ha
      simp [hid] at this
    | some a =>
      have hamem : a ∈ db.animais := List.mem_of_find?_eq_some hf
      have haid : a.id = animalId := by
        have := List.find?_some hf
        simpa using this
      have htut : a.tutorId ≠ user.id := hother a hamem haid
      simp [getAnimalById, hf, htut, htipo]
  · intro hne
    simp [getConsultasByUser, hne, htipo]
  · intro hother
    cases hf : db.animais.find?
        (fun a => a.id == animalId && a.tutorId == user.id) with
    | none => simp [getAnimalExames, hf]
    | some a =>
      exfalso
      have hamem : a ∈ db.animais := List.mem_of_find?_eq_some hf
      have hpred := List.find?_some hf
      have hid : a.id = animalId := by
        have := hpred
        simp at this
        exact this.1
      have htid : a.tutorId = user.id := by
        have := hpred
        simp at this
        exact this.2
      exact hother a hamem hid htid

/-- C4 witness: the non-veterinarian user 2 gets 403 with no data on all
three reads against tutor 1's resources in the sample database. -/
theorem cross_tutor_access_forbidden_witness :
    getAnimalById sampleDb otherAuth 1 = (403, none) ∧
    getConsultasByUser sampleDb otherAuth 1 = (403, none) ∧
    getAnimalExames sampleDb otherAuth 1 = (403, none) :=
  ⟨(cross_tutor_access_forbidden sampleDb otherAuth 1 1 (by decide)).1
      ⟨sampleAnimal, by decide, by decide⟩ (by decide),
    (cross_tutor_access_forbidden sampleDb otherAuth 1 1 (by decide)).2.1
      (by decide),
    (cross_tutor_access_forbidden sampleDb otherAuth 1 1 (by decide)).2.2
      (by decide)⟩

/-- C1: executed one at a time, the appointment operations preserve the
invariant that no two non-cancelled consultas share
(veterinarioId, data, hora); a POST /consultas request passing the earlier
guards whose slot is occupied by a non-cancelled appointment of the same
veterinarian is answered 409 with the database unchanged, and likewise a
PUT /consultas/:id request moving an appointment into such an occupied
slot. -/
theorem consulta_booking_invariant :
    (∀ (db : Db) (ops : List ApiOp), WfDb db → NoDouble db.consultas →
      NoDouble (runOps db ops).consultas) ∧
    (∀ (db : Db) (uid : Nat) (req : NovaConsultaReq) (hojeMs : Int)
      (d : JSDate) (a : Animal),
      truthyId req.animalId = true → truthyId req.clinicaId = true →
      truthyId req.veterinarioId = true → req.data = DataField.valid d →
      ¬(d.ms < hojeMs) →
      db.animais.find? (fun x => x.id == req.animalId.getD 0) = some a →
      a.tutorId = uid →
      (db.veterinarios.find? (fun v => v.id == req.veterinarioId.getD 0 &&
        v.clinicaId == req.clinicaId.getD 0)).isSome = true →
      (db.clinicas.find? (fun c => c.id == req.clinicaId.getD 0)).isSome
        = true →
      slotTakenPost db.consultas (req.veterinarioId.getD 0) d.dataSql
        d.horaSql = true →
      postConsultas db uid req hojeMs = (409, db)) ∧
    (∀ (db : Db) (uid id : Nat) (req : UpdateConsultaReq) (hojeMs : Int)
      (orig : Consulta) (novaData novaHora : String),
      WfDb db → NoDouble db.consultas →
      db.consultas.find? (fun c => c.id == id) = some orig →
      orig.userId = uid → orig.estado ≠ "cancelada" →
      ((req.data = DataField.missing ∧ novaData = orig.data ∧
          novaHora = orig.hora) ∨
        (∃ d, req.data = DataField.valid d ∧ ¬(d.ms < hojeMs) ∧
          novaData = d.dataSql ∧ novaHora = d.horaSql)) →
      ((truthyId req.veterinarioId &&
          (req.veterinarioId.getD orig.veterinarioId != orig.veterinarioId)
          || truthyId req.clinicaId &&
          (req.clinicaId.getD orig.clinicaId != orig.clinicaId)) = true →
        (db.veterinarios.find? (fun v =>
          v.id == req.veterinarioId.getD orig.veterinarioId &&
          v.clinicaId == req.clinicaId.getD orig.clinicaId)).isSome = true) →
      slotTakenPut db.consultas (req.veterinarioId.getD orig.veterinarioId)
        novaData novaHora id = true →
      putConsultas db uid id req hojeMs = (409, db)) := by
  refine ⟨?_, ?_, ?_⟩
  · intro db ops wf nd
    exact (runOps_preserves ops db wf nd).2
  · intro db uid req hojeMs d a h1 h2 h3 hd hpast hfa htut hvet hclin hslot
    have hg : (!truthyId req.animalId || !truthyId req.clinicaId
        || !truthyId req.veterinarioId || req.data.isMissing) = false := by
      rw [h1, h2, h3, hd]
      rfl
    have htutb : (a.tutorId != uid) = false := by simp [htut]
    have hvetn : (db.veterinarios.find? (fun v =>
        v.id == req.veterinarioId.getD 0 &&
        v.clinicaId == req.clinicaId.getD 0)).isNone = false := by
      rcases Option.isSome_iff_exists.mp hvet with ⟨v, hv⟩
      rw [hv]
      rfl
    have hclinn : (db.clinicas.find? (fun c =>
        c.id == req.clinicaId.getD 0)).isNone = false := by
      rcases Option.isSome_iff_exists.mp hclin with ⟨c, hc⟩
      rw [hc]
      rfl
    unfold postConsultas
    rw [if_neg (by simp [hg])]
    simp [hd, hpast, hfa, htutb, hvetn, hclinn, hslot]
  · intro db uid id req hojeMs orig novaData novaHora wf nd horig huid
      hestado hdata hvc hslot
    have huidb : (orig.userId != uid) = false := by simp [huid]
    have hcond1 : ((truthyId req.veterinarioId &&
        (req.veterinarioId.getD orig.veterinarioId != orig.veterinarioId)
        || truthyId req.clinicaId &&
        (req.clinicaId.getD orig.clinicaId != orig.clinicaId)) &&
        (db.veterinarios.find? (fun v =>
          v.id == req.veterinarioId.getD orig.veterinarioId &&
          v.clinicaId == req.clinicaId.getD orig.clinicaId)).isNone)
        = false := by
      cases hx : (truthyId req.veterinarioId &&
          (req.veterinarioId.getD orig.veterinarioId != orig.veterinarioId)
          || truthyId req.clinicaId &&
          (req.clinicaId.getD orig.clinicaId != orig.clinicaId)) with
      | false => rw [Bool.false_and]
      | true =>
        rw [Bool.true_and]
        rcases Option.isSome_iff_exists.mp (hvc hx) with ⟨v, hv⟩
        rw [hv]
        rfl
    rcases hdata with ⟨hmiss, h1, h2⟩ | ⟨d, hvalid, hpast, h1, h2⟩
    · subst h1
      subst h2
      have hmud := putMudou_of_conflict db id orig orig.data orig.hora
        (false && (orig.data != orig.data || orig.hora != orig.hora))
        (truthyId req.veterinarioId &&
          (req.veterinarioId.getD orig.veterinarioId != orig.veterinarioId))
        (req.veterinarioId.getD orig.veterinarioId) wf nd horig hestado
        (fun _ => ⟨rfl, rfl⟩) (vetMudou_false_cases req orig) hslot
      have hstep : putConsultas db uid id req hojeMs =
          putConsultasCore db id req orig orig.data orig.hora false := by
        simp [putConsultas, horig, huidb, hmiss]
      rw [hstep]
      unfold putConsultasCore
      dsimp only
      rw [if_neg (by simp [hcond1])]
      rw [if_pos (by
        simp only [Bool.false_and, Bool.false_or] at hmud ⊢
        rw [hmud, hslot]
        rfl)]
    · subst h1
      subst h2
      have hmud := putMudou_of_conflict db id orig d.dataSql d.horaSql
        (true && (d.dataSql != orig.data || d.horaSql != orig.hora))
        (truthyId req.veterinarioId &&
          (req.veterinarioId.getD orig.veterinarioId != orig.veterinarioId))
        (req.veterinarioId.getD orig.veterinarioId) wf nd horig hestado
        (fun hf => by
          rw [Bool.true_and] at hf
          constructor
          · have := (Bool.or_eq_false_iff.mp hf).1
            simpa using this
          · have := (Bool.or_eq_false_iff.mp hf).2
            simpa using this)
        (vetMudou_false_cases req orig) hslot
      have hstep : putConsultas db uid id req hojeMs =
          putConsultasCore db id req orig d.dataSql d.horaSql true := by
        simp [putConsultas, horig, huidb, hvalid, hpast]
      rw [hstep]
      unfold putConsultasCore
      dsimp only
      rw [if_neg (by simp [hcond1])]
      rw [if_pos (by
        rw [Bool.true_and] at hmud
        rw [Bool.true_and, hmud, hslot]
        rfl)]

/-- C1 witness: on the two-consulta sample database, a fresh booking keeps
the invariant, booking the occupied `dia1` slot is answered (409, unchanged),
and moving consulta 2 onto the occupied `dia1` slot is answered
(409, unchanged). -/
theorem consulta_booking_invariant_witness :
    NoDouble (runOps c1Db [ApiOp.postConsulta 1
      { animalId := some 1, clinicaId := some 1, veterinarioId := some 1,
        data := DataField.valid (JSDate.mk 3000 "2030-01-03" "09:00:00"),
        motivo := none } 0]).consultas ∧
    postConsultas c1Db 1
      { animalId := some 1, clinicaId := some 1, veterinarioId := some 1,
        data := DataField.valid dia1, motivo := none } 0 = (409, c1Db) ∧
    putConsultas c1Db 1 2
      { motivo := none, data := DataField.valid dia1, clinicaId := none,
        veterinarioId := none, observacoes := none } 0 = (409, c1Db) :=
  ⟨consulta_booking_invariant.1 c1Db _ ⟨by decide, by decide, by decide,
      by decide⟩ (by decide),
    consulta_booking_invariant.2.1 c1Db 1
      { animalId := some 1, clinicaId := some 1, veterinarioId := some 1,
        data := DataField.valid dia1, motivo := none } 0 dia1 sampleAnimal
      (by decide) (by decide) (by decide) rfl (by decide) (by decide)
      (by decide) (by decide) (by decide) (by decide),
    consulta_booking_invariant.2.2 c1Db 1 2
      { motivo := none, data := DataField.valid dia1, clinicaId := none,
        veterinarioId := none, observacoes := none } 0 consulta2
      dia1.dataSql dia1.horaSql
      ⟨by decide, by decide, by decide, by decide⟩ (by decide) (by decide)
      (by decide) (by decide)
      (Or.inr ⟨dia1, rfl, by decide, rfl, rfl⟩)
      (by intro h; exact absurd h (by decide)) (by decide)⟩

/-- C9: no modelled operation ever stores estado = 'cancelada' in the
consultas table — DELETE /consultas/:id removes the row outright — so from
any state with no cancelled rows, the `estado != 'cancelada'` filter of the
conflict query excludes no rows, and a successful DELETE frees the deleted
appointment's (veterinarioId, data, hora) slot for rebooking. -/
theorem no_cancelada_ever_stored :
    (∀ (db : Db) (ops : List ApiOp), NoCancelada db.consultas →
      NoCancelada (runOps db ops).consultas) ∧
    (∀ (cs : List Consulta) (v : Nat) (d h : String), NoCancelada cs →
      slotTakenPost cs v d h =
        cs.any (fun c => c.veterinarioId == v && c.data == d &&
          c.hora == h)) ∧
    (∀ (db : Db) (uid : Nat) (tipo : String) (id : Nat)
      (dateMs : String → Int) (hojeMs : Int) (orig : Consulta),
      db.consultas.find? (fun c => c.id == id) = some orig →
      (deleteConsultas db uid tipo id dateMs hojeMs).1 = 200 →
      (deleteConsultas db uid tipo id dateMs hojeMs).2.consultas =
        db.consultas.filter (fun c => !(c.id == id)) ∧
      (WfDb db → NoDouble db.consultas → NoCancelada db.consultas →
        slotTakenPost
          (deleteConsultas db uid tipo id dateMs hojeMs).2.consultas
          orig.veterinarioId orig.data orig.hora = false)) := by
  refine ⟨?_, ?_, ?_⟩
  · intro db ops h
    exact runOps_noCancelada ops db h
  · intro cs v d h hnc
    unfold slotTakenPost
    cases hrhs : cs.any (fun c => c.veterinarioId == v && c.data == d &&
        c.hora == h) with
    | true =>
      obtain ⟨c, hcm, hcp⟩ := List.any_eq_true.mp hrhs
      refine List.any_eq_true.mpr ⟨c, hcm, ?_⟩
      have hce : (c.estado != "cancelada") = true := by simp [hnc c hcm]
      rw [hcp, hce]
      rfl
    | false =>
      refine List.any_eq_false.mpr ?_
      intro c hcm hcp
      apply List.any_eq_false.mp hrhs c hcm
      simp only [Bool.and_eq_true] at hcp
      simp [hcp.1.1.1, hcp.1.1.2, hcp.1.2]
  · intro db uid tipo id dateMs hojeMs orig horig h200
    have hval : (deleteConsultas db uid tipo id dateMs hojeMs).2 =
        { db with consultas := db.consultas.filter (fun c => !(c.id == id)) } := by
      unfold deleteConsultas at h200 ⊢
      rw [horig] at h200 ⊢
      dsimp only at h200 ⊢
      split
      next hcond =>
        rw [if_pos hcond] at h200
        simp at h200
      next hcond =>
        rw [if_neg hcond] at h200
        split
        next hcond2 =>
          rw [if_pos hcond2] at h200
          simp at h200
        next hcond2 =>
          rfl
    constructor
    · rw [hval]
    · intro wf nd hnc
      rw [hval]
      show slotTakenPost (db.consultas.filter (fun c => !(c.id == id)))
        orig.veterinarioId orig.data orig.hora = false
      unfold slotTakenPost
      refine List.any_eq_false.mpr ?_
      intro c hcm hcp
      have hcmem := List.mem_of_mem_filter hcm
      have hcid : c.id ≠ id := by
        have := List.of_mem_filter hcm
        simpa using this
      simp only [Bool.and_eq_true, beq_iff_eq, bne_iff_ne] at hcp
      obtain ⟨⟨⟨hcv, hcd⟩, hch⟩, hce⟩ := hcp
      have horigmem := List.mem_of_find?_eq_some horig
      have horigid : orig.id = id := by simpa using List.find?_some horig
      have hcne : c ≠ orig := fun hh => hcid (hh ▸ horigid)
      rcases List.Pairwise.forall noDoubleRel_symm nd hcmem horigmem hcne
        with hx | hx | hx
      · exact hce hx
      · exact hnc orig horigmem hx
      · exact hx ⟨hcv, hcd, hch⟩

/-- C9 witness: on the two-consulta sample database, deleting consulta 2
leaves only non-cancelled rows, the conflict filter coincides with the
unfiltered slot query, and the freed `dia2` slot reports no conflict. -/
theorem no_cancelada_ever_stored_witness :
    NoCancelada (runOps c1Db
      [ApiOp.deleteConsulta 1 "tutor" 2 zeroDateMs 0]).consultas ∧
    slotTakenPost c1Db.consultas 1 "2030-01-01" "10:00:00" =
      c1Db.consultas.any (fun c => c.veterinarioId == 1 &&
        c.data == "2030-01-01" && c.hora == "10:00:00") ∧
    slotTakenPost (deleteConsultas c1Db 1 "tutor" 2 zeroDateMs 0).2.consultas
      consulta2.veterinarioId consulta2.data consulta2.hora = false :=
  ⟨no_cancelada_ever_stored.1 c1Db
      [ApiOp.deleteConsulta 1 "tutor" 2 zeroDateMs 0] (by decide),
    no_cancelada_ever_stored.2.1 c1Db.consultas 1 "2030-01-01" "10:00:00"
      (by decide),
    (no_cancelada_ever_stored.2.2 c1Db 1 "tutor" 2 zeroDateMs 0 consulta2
      (by decide) (by decide)).2 ⟨by decide, by decide, by decide, by decide⟩
      (by decide) (by decide)⟩

/-- Lookups by a predicate blind to the verificado flag agree, up to that
flag, on two user lists differing only in verificado values. -/
theorem find_eraseVerificado : ∀ (l1 l2 : List User),
    l1.map User.eraseVerificado = l2.map User.eraseVerificado →
    ∀ (p : User → Bool),
    (∀ u v, User.eraseVerificado u = User.eraseVerificado v → p u = p v) →
    (l1.find? p = none ∧ l2.find? p = none) ∨
    (∃ u1 u2, l1.find? p = some u1 ∧ l2.find? p = some u2 ∧
      User.eraseVerificado u1 = User.eraseVerificado u2) := by
  intro l1
  induction l1 with
  | nil =>
    intro l2 h p hp
    cases l2 with
    | nil => exact Or.inl ⟨rfl, rfl⟩
    | cons v t2 => simp at h
  | cons u t1 ih =>
    intro l2 h p hp
    cases l2 with
    | nil => simp at h
    | cons v t2 =>
      simp only [List.map_cons, List.cons.injEq] at h
      obtain ⟨huv, ht⟩ := h
      have hpv : p u = p v := hp u v huv
      cases hpu : p u with
      | true =>
        exact Or.inr ⟨u, v, List.find?_cons_of_pos _ hpu,
          List.find?_cons_of_pos _ (hpv ▸ hpu), huv⟩
      | false =>
        rw [List.find?_cons_of_neg _ (by simp [hpu]),
          List.find?_cons_of_neg _ (by simp [hpv ▸ hpu])]
        exact ih t2 ht p hp

/-- C10: POST /utilizadores/criar-pin and POST /utilizadores/login behave
identically on any two database states differing only in users' verificado
flags — same status, same token for login — and their state changes again
differ only in verificado flags, so an unverified user can set a PIN and
obtain a session token. -/
theorem pin_login_ignore_verificado :
    ∀ (db1 db2 : Db) (req : CriarPinReq) (lreq : LoginReq)
      (bhash : String → String) (bcompare : String → String → Bool),
      VerifIndep db1 db2 →
      ((postCriarPin db1 req bhash).1 = (postCriarPin db2 req bhash).1 ∧
        VerifIndep (postCriarPin db1 req bhash).2
          (postCriarPin db2 req bhash).2) ∧
      ((postLogin db1 lreq bcompare).1 = (postLogin db2 lreq bcompare).1 ∧
        (postLogin db1 lreq bcompare).2.1
          = (postLogin db2 lreq bcompare).2.1 ∧
        (postLogin db1 lreq bcompare).2.2 = db1 ∧
        (postLogin db2 lreq bcompare).2.2 = db2) := by
  intro db1 db2 req lreq bhash bcompare hvi
  obtain ⟨hu, ha, hcl, hve, hco, hva, htv, hex, hit, hnx⟩ := hvi
  constructor
  · by_cases hg : (!truthyStr req.email || !truthyStr req.pin) = true
    · have hval1 : postCriarPin db1 req bhash = (400, db1) := by
        unfold postCriarPin
        rw [if_pos hg]
      have hval2 : postCriarPin db2 req bhash = (400, db2) := by
        unfold postCriarPin
        rw [if_pos hg]
      rw [hval1, hval2]
      exact ⟨rfl, hu, ha, hcl, hve, hco, hva, htv, hex, hit, hnx⟩
    · have hgb : (!truthyStr req.email || !truthyStr req.pin) = false := by
        revert hg
        cases (!truthyStr req.email || !truthyStr req.pin) <;> simp
      by_cases hl : ((req.pin.getD "").length != 6) = true
      · have hval1 : postCriarPin db1 req bhash = (400, db1) := by
          simp [postCriarPin, hgb, hl]
        have hval2 : postCriarPin db2 req bhash = (400, db2) := by
          simp [postCriarPin, hgb, hl]
        rw [hval1, hval2]
        exact ⟨rfl, hu, ha, hcl, hve, hco, hva, htv, hex, hit, hnx⟩
      · have hlf : ((req.pin.getD "").length != 6) = false := by
          revert hl
          cases ((req.pin.getD "").length != 6) <;> simp
        have hp : ∀ u v, User.eraseVerificado u = User.eraseVerificado v →
            (u.email == req.email.getD "") = (v.email == req.email.getD "") := by
          intro u v h
          have he : u.email = v.email := by
            have := congrArg User.email h
            simpa [User.eraseVerificado] using this
          rw [he]
        rcases find_eraseVerificado db1.users db2.users hu
            (fun u => u.email == req.email.getD "") hp with
          ⟨hf1, hf2⟩ | ⟨u1, u2, hf1, hf2, -⟩
        · have hval1 : postCriarPin db1 req bhash = (404, db1) := by
            simp [postCriarPin, hgb, hlf, hf1]
          have hval2 : postCriarPin db2 req bhash = (404, db2) := by
            simp [postCriarPin, hgb, hlf, hf2]
          rw [hval1, hval2]
          exact ⟨rfl, hu, ha, hcl, hve, hco, hva, htv, hex, hit, hnx⟩
        · have hval1 : postCriarPin db1 req bhash = (200,
              { db1 with users := db1.users.map (fun u =>
                if u.email == req.email.getD "" then
                  { u with pin := some (bhash (req.pin.getD "")) }
                else u) }) := by
            simp [postCriarPin, hgb, hlf, hf1]
          have hval2 : postCriarPin db2 req bhash = (200,
              { db2 with users := db2.users.map (fun u =>
                if u.email == req.email.getD "" then
                  { u with pin := some (bhash (req.pin.getD "")) }
                else u) }) := by
            simp [postCriarPin, hgb, hlf, hf2]
          rw [hval1, hval2]
          refine ⟨rfl, ?_, ha, hcl, hve, hco, hva, htv, hex, hit, hnx⟩
          have hcomm : ∀ u, User.eraseVerificado
              ((fun u => if u.email == req.email.getD "" then
                { u with pin := some (bhash (req.pin.getD "")) } else u) u) =
              (fun u => if u.email == req.email.getD "" then
                { u with pin := some (bhash (req.pin.getD "")) } else u)
              (User.eraseVerificado u) := by
            intro u
            by_cases h : (u.email == req.email.getD "") = true
            · simp [User.eraseVerificado, h]
            · simp [User.eraseVerificado, h]
          show (db1.users.map _).map User.eraseVerificado =
            (db2.users.map _).map User.eraseVerificado
          rw [List.map_map, List.map_map,
            show User.eraseVerificado ∘ (fun u =>
              if u.email == req.email.getD "" then
                { u with pin := some (bhash (req.pin.getD "")) } else u) =
              (fun u => if u.email == req.email.getD "" then
                { u with pin := some (bhash (req.pin.getD "")) } else u) ∘
              User.eraseVerificado from funext hcomm,
            ← List.map_map, ← List.map_map, hu]
  · by_cases hg : (!truthyStr lreq.email || !truthyStr lreq.pin) = true
    · have hval1 : postLogin db1 lreq bcompare = (400, none, db1) := by
        unfold postLogin
        rw [if_pos hg]
      have hval2 : postLogin db2 lreq bcompare = (400, none, db2) := by
        unfold postLogin
        rw [if_pos hg]
      rw [hval1, hval2]
      exact ⟨rfl, rfl, rfl, rfl⟩
    · have hgb : (!truthyStr lreq.email || !truthyStr lreq.pin) = false := by
        revert hg
        cases (!truthyStr lreq.email || !truthyStr lreq.pin) <;> simp
      have hp : ∀ u v, User.eraseVerificado u = User.eraseVerificado v →
          (u.email == lreq.email.getD "") = (v.email == lreq.email.getD "") := by
        intro u v h
        have he : u.email = v.email := by
          have := congrArg User.email h
          simpa [User.eraseVerificado] using this
        rw [he]
      rcases find_eraseVerificado db1.users db2.users hu
          (fun u => u.email == lreq.email.getD "") hp with
        ⟨hf1, hf2⟩ | ⟨u1, u2, hf1, hf2, herase⟩
      · have hval1 : postLogin db1 lreq bcompare = (401, none, db1) := by
          simp [postLogin, hgb, hf1]
        have hval2 : postLogin db2 lreq bcompare = (401, none, db2) := by
          simp [postLogin, hgb, hf2]
        rw [hval1, hval2]
        exact ⟨rfl, rfl, rfl, rfl⟩
      · have hpin : u1.pin = u2.pin := by
          have := congrArg User.pin herase
          simpa [User.eraseVerificado] using this
        have hid : u1.id = u2.id := by
          have := congrArg User.id herase
          simpa [User.eraseVerificado] using this
        have hemail : u1.email = u2.email := by
          have := congrArg User.email herase
          simpa [User.eraseVerificado] using this
        cases hup : u1.pin with
        | none =>
          have hup2 : u2.pin = none := by rw [← hpin, hup]
          have hval1 : postLogin db1 lreq bcompare = (401, none, db1) := by
            simp [postLogin, hgb, hf1, hup]
          have hval2 : postLogin db2 lreq bcompare = (401, none, db2) := by
            simp [postLogin, hgb, hf2, hup2]
          rw [hval1, hval2]
          exact ⟨rfl, rfl, rfl, rfl⟩
        | some storedHash =>
          have hup2 : u2.pin = some storedHash := by rw [← hpin, hup]
          by_cases hc : bcompare (lreq.pin.getD "") storedHash = true
          · have hval1 : postLogin db1 lreq bcompare =
                (200, some (SignedToken.mk u1.id u1.email 3), db1) := by
              simp [postLogin, hgb, hf1, hup, hc]
            have hval2 : postLogin db2 lreq bcompare =
                (200, some (SignedToken.mk u2.id u2.email 3), db2) := by
              simp [postLogin, hgb, hf2, hup2, hc]
            rw [hval1, hval2]
            exact ⟨rfl, by rw [hid, hemail], rfl, rfl⟩
          · have hcf : bcompare (lreq.pin.getD "") storedHash = false := by
              revert hc
              cases bcompare (lreq.pin.getD "") storedHash <;> simp
            have hval1 : postLogin db1 lreq bcompare = (401, none, db1) := by
              simp [postLogin, hgb, hf1, hup, hcf]
            have hval2 : postLogin db2 lreq bcompare = (401, none, db2) := by
              simp [postLogin, hgb, hf2, hup2, hcf]
            rw [hval1, hval2]
            exact ⟨rfl, rfl, rfl, rfl⟩

/-- C10 witness: on the sample databases differing only in Ana's verificado
flag, criar-pin answers the same status and login issues the same token; in
particular the unverified Ana logs in with 200. -/
theorem pin_login_ignore_verificado_witness :
    ((postCriarPin sampleDb { email := some "ana@ex.pt", pin := some "111111" }
        hashSim).1 =
      (postCriarPin sampleDbVerified
        { email := some "ana@ex.pt", pin := some "111111" } hashSim).1) ∧
    ((postLogin sampleDb { email := some "ana@ex.pt", pin := some "123456" }
        cmpSim).2.1 =
      (postLogin sampleDbVerified
        { email := some "ana@ex.pt", pin := some "123456" } cmpSim).2.1) ∧
    (postLogin sampleDb { email := some "ana@ex.pt", pin := some "123456" }
        cmpSim).1 = 200 :=
  ⟨(pin_login_ignore_verificado sampleDb sampleDbVerified
      { email := some "ana@ex.pt", pin := some "111111" }
      { email := some "ana@ex.pt", pin := some "123456" } hashSim cmpSim
      (by refine ⟨?_, rfl, rfl, rfl, rfl, rfl, rfl, rfl, rfl, rfl⟩
          decide)).1.1,
    (pin_login_ignore_verificado sampleDb sampleDbVerified
      { email := some "ana@ex.pt", pin := some "111111" }
      { email := some "ana@ex.pt", pin := some "123456" } hashSim cmpSim
      (by refine ⟨?_, rfl, rfl, rfl, rfl, rfl, rfl, rfl, rfl, rfl⟩
          decide)).2.2.1,
    by decide⟩

end VetConnect
